import Mathlib

/-!
# Intel RAPL sysfs driver (`intel_rapl_power.c`): shallow embedding

Machine integers are natural numbers or integers with explicit reduction
modulo `2^32` / `2^64` wherever the C arithmetic is performed in a fixed
width.  Reads of a model-specific register (`rdmsrl`) are inputs of the
embedded functions; the text a `*_show` callback prints is represented by
the format it uses and the number it formats.
-/

namespace RAPL

/-! ## Data model -/

/-- The C `enum rapl_unit`. -/
inductive rapl_unit
  | POWER_UNIT_DEFAULT
  | ENERGY_UNIT_DEFAULT
  | TIME_UNIT_DEFAULT
  | UNIT_UNKNOWN
  deriving DecidableEq, Repr

/-- The file-scope variables of the driver: the three unit kinds, the two
energy samples (`u64`), whether `updatetimer` is armed, and whether
`powerinfo_kobj` holds a live kobject. -/
structure State where
  energy_unit_type : rapl_unit
  power_unit_type : rapl_unit
  time_unit_type : rapl_unit
  energystart : Nat
  energyend : Nat
  timer_pending : Bool
  powerinfo_kobj : Bool
  deriving DecidableEq, Repr

/-- What a `*_show` callback writes into the buffer: the literal `"-1\n"`,
or an unsigned decimal number (formats `"%u\n"` and `"%llu\n"`). -/
inductive Printed
  | sentinel
  | unsigned (n : Nat)
  deriving DecidableEq, Repr

/-- What the platform presents while the module is loaded: the CPU
signature (`boot_cpu_data.x86`, `boot_cpu_data.x86_model`), the value read
from `MSR_RAPL_POWER_UNIT`, whether `kobject_create_and_add` returned a
kobject, the result of `sysfs_create_group`, and the value read from
`MSR_PKG_ENERGY_STATUS`. -/
structure Boot where
  x86 : Nat
  x86_model : Nat
  msr_rapl_power_unit : Nat
  kobj_created : Bool
  sysfs_retval : Int
  msr_pkg_energy_status : Nat
  deriving DecidableEq, Repr

/-! ## Constants -/

abbrev MSR_RAPL_POWER_UNIT : Nat := 0x606
abbrev MSR_PKG_RAPL_POWER_LIMIT : Nat := 0x610
abbrev MSR_PKG_ENERGY_STATUS : Nat := 0x611
abbrev MSR_PKG_POWER_INFO : Nat := 0x614

abbrev POWER_UNIT_OFFSET : Nat := 0x00
abbrev POWER_UNIT_MASK : Nat := 0x0F
abbrev ENERGY_UNIT_OFFSET : Nat := 0x08
abbrev ENERGY_UNIT_MASK : Nat := 0x1F
abbrev TIME_UNIT_OFFSET : Nat := 0x10
abbrev TIME_UNIT_MASK : Nat := 0xF

abbrev THERMAL_SPEC_POWER_OFFSET : Nat := 0x0
abbrev THERMAL_SPEC_POWER_MASK : Nat := 0x7FFF
abbrev MINIMUM_POWER_OFFSET : Nat := 0x10
abbrev MINIMUM_POWER_MASK : Nat := 0x7FFF
abbrev MAXIMUM_POWER_OFFSET : Nat := 0x20
abbrev MAXIMUM_POWER_MASK : Nat := 0x7FFF
abbrev MAXIMUM_TIME_WINDOW_OFFSET : Nat := 0x30
abbrev MAXIMUM_TIME_WINDOW_MASK : Nat := 0x3F

abbrev PKG_POWER_LIMIT_LOCK_OFFSET : Nat := 0x3F
abbrev PKG_POWER_LIMIT_LOCK_MASK : Nat := 0x1
abbrev ENABLE_LIMIT_2_OFFSET : Nat := 0x2F
abbrev ENABLE_LIMIT_2_MASK : Nat := 0x1
abbrev PKG_CLAMPING_LIMIT_2_OFFSET : Nat := 0x30
abbrev PKG_CLAMPING_LIMIT_2_MASK : Nat := 0x1
abbrev PKG_POWER_LIMIT_2_OFFSET : Nat := 0x20
abbrev PKG_POWER_LIMIT_2_MASK : Nat := 0x7FFF
abbrev ENABLE_LIMIT_1_OFFSET : Nat := 0xF
abbrev ENABLE_LIMIT_1_MASK : Nat := 0x1
abbrev PKG_CLAMPING_LIMIT_1_OFFSET : Nat := 0x10
abbrev PKG_CLAMPING_LIMIT_1_MASK : Nat := 0x1
abbrev PKG_POWER_LIMIT_1_OFFSET : Nat := 0x0
abbrev PKG_POWER_LIMIT_1_MASK : Nat := 0x7FFF
abbrev TIME_WINDOW_POWER_LIMIT_1_OFFSET : Nat := 0x11
abbrev TIME_WINDOW_POWER_LIMIT_1_MASK : Nat := 0x7F
abbrev TIME_WINDOW_POWER_LIMIT_2_OFFSET : Nat := 0x31
abbrev TIME_WINDOW_POWER_LIMIT_2_MASK : Nat := 0x7F

/-- Linux `EPERM`. -/
abbrev EPERM : Int := 1
/-- Linux `ENOMEM`. -/
abbrev ENOMEM : Int := 12
/-- Linux `ENODEV`. -/
abbrev ENODEV : Int := 19

/-! ## Fixed-width arithmetic -/

/-- Conversion of a `u32` to `int` (two's complement, as the kernel's
compilers define it). -/
def int_of_u32 (x : Nat) : Int :=
  if x < 2 ^ 31 then (x : Int) else (x : Int) - 2 ^ 32

/-- The `unsigned int` that `"%u"` prints when handed an `int`. -/
def u32_of_int (i : Int) : Nat :=
  (i % 2 ^ 32).toNat

/-- The cast `(u32)x` of a `u64`. -/
def u32_of_u64 (x : Nat) : Nat :=
  x % 2 ^ 32

/-- Bitwise complement of a `u64`. -/
def not64 (x : Nat) : Nat :=
  2 ^ 64 - 1 - x % 2 ^ 64

/-- Left shift of a `u64`. -/
def shl64 (x n : Nat) : Nat :=
  (x <<< n) % 2 ^ 64

/-- Addition of two `u64`. -/
def add64 (x y : Nat) : Nat :=
  (x + y) % 2 ^ 64

/-- Subtraction of two `u64`. -/
def sub64 (x y : Nat) : Nat :=
  (x + (2 ^ 64 - y % 2 ^ 64)) % 2 ^ 64

/-- Conversion of a `size_t` to `ssize_t` (two's complement, 64 bits). -/
def ssize_of_size (x : Nat) : Int :=
  if x < 2 ^ 63 then (x : Int) else (x : Int) - 2 ^ 64

/-! ## Unit conversion -/

/-- The C `to_millijoules`: `u32` arithmetic, result converted to `int`. -/
def to_millijoules (value : Nat) : Int :=
  let high := value / 10000
  let low := value % 10000
  int_of_u32 ((high * 153 % 2 ^ 32 + low * 153 % 2 ^ 32 / 10000) % 2 ^ 32)

/-- The C `to_milliseconds`: `u32` arithmetic, result converted to `int`. -/
def to_milliseconds (value : Nat) : Int :=
  let high := value / 1000
  let low := value % 1000
  int_of_u32 ((high * 976 % 2 ^ 32 + low * 976 % 2 ^ 32 / 1000) % 2 ^ 32)

/-! ## Read-only attributes -/

/-- The C `joules_show`; `output` is the value `rdmsrl` reads from
`MSR_PKG_ENERGY_STATUS`. -/
def joules_show (s : State) (output : Nat) : Printed :=
  if s.energy_unit_type = rapl_unit.UNIT_UNKNOWN then Printed.sentinel
  else Printed.unsigned (u32_of_int (to_millijoules (u32_of_u64 output)))

/-- The C `update_watts_timer`; `msr` is the value `rdmsrl` reads from
`MSR_PKG_ENERGY_STATUS`. -/
def update_watts_timer (s : State) (msr : Nat) : State :=
  { s with timer_pending := true, energystart := s.energyend, energyend := msr }

/-- The `int result` computed by `watts_show`.  Both operands lie in
`[0, 65712999]`, so the `int` subtraction cannot overflow. -/
def watts_result (s : State) : Int :=
  to_millijoules (u32_of_u64 s.energyend) - to_millijoules (u32_of_u64 s.energystart)

/-- The C `watts_show`: the `int` result is printed with `"%u"`. -/
def watts_show (s : State) : Printed :=
  if s.energy_unit_type = rapl_unit.UNIT_UNKNOWN then Printed.sentinel
  else Printed.unsigned (u32_of_int (watts_result s))

/-- The C `power_info_show`; `name` is `attr->attr.name`, `output` the
value `rdmsrl` reads from `MSR_PKG_POWER_INFO`. -/
def power_info_show (s : State) (name : String) (output : Nat) : Printed :=
  if name = "thermal_spec_power_watts" ∧ s.power_unit_type ≠ rapl_unit.UNIT_UNKNOWN then
    Printed.unsigned (((output >>> THERMAL_SPEC_POWER_OFFSET) &&& THERMAL_SPEC_POWER_MASK) / 8)
  else if name = "minimum_power_watts" ∧ s.power_unit_type ≠ rapl_unit.UNIT_UNKNOWN then
    Printed.unsigned (((output >>> MINIMUM_POWER_OFFSET) &&& MINIMUM_POWER_MASK) / 8)
  else if name = "maximum_power_watts" ∧ s.power_unit_type ≠ rapl_unit.UNIT_UNKNOWN then
    Printed.unsigned (((output >>> MAXIMUM_POWER_OFFSET) &&& MAXIMUM_POWER_MASK) / 8)
  else if name = "maximum_time_window_milliseconds"
      ∧ s.time_unit_type ≠ rapl_unit.UNIT_UNKNOWN then
    Printed.unsigned (u32_of_int (to_milliseconds
      (u32_of_u64 ((output >>> MAXIMUM_TIME_WINDOW_OFFSET) &&& MAXIMUM_TIME_WINDOW_MASK))))
  else Printed.sentinel

/-- The C `no_store`: the returned `ssize_t` and the list of register
writes it issues (none). -/
def no_store (s : State) (_name : String) (_buf : String) (_count : Nat) :
    Int × State × List (Nat × Nat × Nat) :=
  (-EPERM, s, [])

/-! ## Power-limit attributes -/

/-- The C `power_limit_show`; `output` is the value `rdmsrl` reads from
`MSR_PKG_RAPL_POWER_LIMIT`. -/
def power_limit_show (name : String) (output : Nat) : Printed :=
  if name = "power_limit_lock" then
    Printed.unsigned ((output >>> PKG_POWER_LIMIT_LOCK_OFFSET) &&& PKG_POWER_LIMIT_LOCK_MASK)
  else if name = "power_limit_1" then
    Printed.unsigned ((output >>> PKG_POWER_LIMIT_1_OFFSET) &&& PKG_POWER_LIMIT_1_MASK)
  else if name = "power_limit_2" then
    Printed.unsigned ((output >>> PKG_POWER_LIMIT_2_OFFSET) &&& PKG_POWER_LIMIT_2_MASK)
  else if name = "enable_limit_1" then
    Printed.unsigned ((output >>> ENABLE_LIMIT_1_OFFSET) &&& ENABLE_LIMIT_1_MASK)
  else if name = "enable_limit_2" then
    Printed.unsigned ((output >>> ENABLE_LIMIT_2_OFFSET) &&& ENABLE_LIMIT_2_MASK)
  else if name = "clamping_limit_1" then
    Printed.unsigned ((output >>> PKG_CLAMPING_LIMIT_1_OFFSET) &&& PKG_CLAMPING_LIMIT_1_MASK)
  else if name = "clamping_limit_2" then
    Printed.unsigned ((output >>> PKG_CLAMPING_LIMIT_2_OFFSET) &&& PKG_CLAMPING_LIMIT_2_MASK)
  else if name = "time_window_power_limit_1" then
    Printed.unsigned
      ((output >>> TIME_WINDOW_POWER_LIMIT_1_OFFSET) &&& TIME_WINDOW_POWER_LIMIT_1_MASK)
  else if name = "time_window_power_limit_2" then
    Printed.unsigned
      ((output >>> TIME_WINDOW_POWER_LIMIT_2_OFFSET) &&& TIME_WINDOW_POWER_LIMIT_2_MASK)
  else Printed.sentinel

/-- The `(offset, mask)` pair that the name dispatch of `power_limit_store`
selects; both stay `0` when no name matches. -/
def power_limit_field (name : String) : Nat × Nat :=
  if name = "power_limit_lock" then (PKG_POWER_LIMIT_LOCK_OFFSET, PKG_POWER_LIMIT_LOCK_MASK)
  else if name = "power_limit_1" then (PKG_POWER_LIMIT_1_OFFSET, PKG_POWER_LIMIT_1_MASK)
  else if name = "power_limit_2" then (PKG_POWER_LIMIT_2_OFFSET, PKG_POWER_LIMIT_2_MASK)
  else if name = "enable_limit_1" then (ENABLE_LIMIT_1_OFFSET, ENABLE_LIMIT_1_MASK)
  else if name = "enable_limit_2" then (ENABLE_LIMIT_2_OFFSET, ENABLE_LIMIT_2_MASK)
  else if name = "clamping_limit_1" then
    (PKG_CLAMPING_LIMIT_1_OFFSET, PKG_CLAMPING_LIMIT_1_MASK)
  else if name = "clamping_limit_2" then
    (PKG_CLAMPING_LIMIT_2_OFFSET, PKG_CLAMPING_LIMIT_2_MASK)
  else if name = "time_window_power_limit_1" then
    (TIME_WINDOW_POWER_LIMIT_1_OFFSET, TIME_WINDOW_POWER_LIMIT_1_MASK)
  else if name = "time_window_power_limit_2" then
    (TIME_WINDOW_POWER_LIMIT_2_OFFSET, TIME_WINDOW_POWER_LIMIT_2_MASK)
  else (0, 0)

/-- The `newval` of `power_limit_store`:
`((mask & userinput) << offset) + (currentval & (~(mask << offset)))`
in `u64` arithmetic. -/
def power_limit_newval (name : String) (currentval userinput : Nat) : Nat :=
  let offset := (power_limit_field name).1
  let mask := (power_limit_field name).2
  add64 (shl64 (mask &&& userinput) offset) (currentval &&& not64 (shl64 mask offset))

/-- The C `power_limit_store`.  `userinput` is the `u32` that `sscanf`
stored, `currentval` the value `rdmsrl` reads from
`MSR_PKG_RAPL_POWER_LIMIT`, `writeerror` the `int` that
`native_write_msr_safe` returns.  The result is the returned `ssize_t`
together with the calls of the write primitive (address, low half, high
half); `count` is a `size_t`, converted to the `ssize_t` return type. -/
def power_limit_store (name : String) (userinput currentval : Nat) (writeerror : Int)
    (count : Nat) : Int × List (Nat × Nat × Nat) :=
  let newval := power_limit_newval name currentval userinput
  let writes := [(MSR_PKG_RAPL_POWER_LIMIT, u32_of_u64 newval, u32_of_u64 (newval >>> 32))]
  if writeerror ≠ 0 then
    (if writeerror > 0 then -writeerror else writeerror, writes)
  else (ssize_of_size count, writes)

/-- The nine attribute names served by `power_limit_show` and
`power_limit_store` (the `kobj_attribute` table). -/
def limit_names : List String :=
  ["power_limit_lock", "power_limit_1", "power_limit_2", "enable_limit_1",
   "enable_limit_2", "clamping_limit_1", "clamping_limit_2",
   "time_window_power_limit_1", "time_window_power_limit_2"]

/-! ## Unit detection and module life cycle -/

/-- The C `rapl_check_unit`; `output` is the value `rdmsrl` reads from
`MSR_RAPL_POWER_UNIT` (read only on a Sandy Bridge signature). -/
def rapl_check_unit (s : State) (x86 x86_model output : Nat) : Int × State :=
  if x86 ≠ 0x06 ∨ (x86_model ≠ 0x2A ∧ x86_model ≠ 0x2D) then
    (-ENODEV,
      { s with
        energy_unit_type := rapl_unit.UNIT_UNKNOWN
        power_unit_type := rapl_unit.UNIT_UNKNOWN
        time_unit_type := rapl_unit.UNIT_UNKNOWN })
  else
    (0,
      { s with
        energy_unit_type :=
          if (output >>> ENERGY_UNIT_OFFSET) &&& ENERGY_UNIT_MASK = 0x10 then
            rapl_unit.ENERGY_UNIT_DEFAULT
          else rapl_unit.UNIT_UNKNOWN
        power_unit_type :=
          if (output >>> POWER_UNIT_OFFSET) &&& POWER_UNIT_MASK = 0x3 then
            rapl_unit.POWER_UNIT_DEFAULT
          else rapl_unit.UNIT_UNKNOWN
        time_unit_type :=
          if (output >>> TIME_UNIT_OFFSET) &&& TIME_UNIT_MASK = 0xA then
            rapl_unit.TIME_UNIT_DEFAULT
          else rapl_unit.UNIT_UNKNOWN })

/-- The C `powerinfoinit`. -/
def powerinfoinit (s : State) (b : Boot) : Int × State :=
  let r := rapl_check_unit s b.x86 b.x86_model b.msr_rapl_power_unit
  if r.1 ≠ 0 then (r.1, r.2)
  else if b.kobj_created = false then (-ENOMEM, { r.2 with powerinfo_kobj := false })
  else
    let retval := b.sysfs_retval
    let s1 : State := { r.2 with powerinfo_kobj := if retval ≠ 0 then false else true }
    if retval = 0 ∧ s1.energy_unit_type ≠ rapl_unit.UNIT_UNKNOWN then
      (retval,
        { s1 with
          timer_pending := true
          energyend := b.msr_pkg_energy_status
          energystart := sub64 b.msr_pkg_energy_status 1 })
    else (retval, s1)

/-- The C `powerinfoexit`. -/
def powerinfoexit (s : State) : State :=
  { s with powerinfo_kobj := false, timer_pending := false }

/-- The timer callback run once per element of `reads`, each element being
the value the callback reads from `MSR_PKG_ENERGY_STATUS`. -/
def run_ticks (s : State) (reads : List Nat) : State :=
  reads.foldl update_watts_timer s

/-- The file-scope variables as the loader zero-initialises them. -/
def zero_state : State :=
  { energy_unit_type := rapl_unit.POWER_UNIT_DEFAULT
    power_unit_type := rapl_unit.POWER_UNIT_DEFAULT
    time_unit_type := rapl_unit.POWER_UNIT_DEFAULT
    energystart := 0
    energyend := 0
    timer_pending := false
    powerinfo_kobj := false }

/-! ## The attribute table -/

/-- The `show` callbacks of the driver. -/
inductive ShowFn
  | joules_show
  | watts_show
  | power_info_show
  | power_limit_show
  deriving DecidableEq, Repr

/-- The `store` callbacks of the driver. -/
inductive StoreFn
  | no_store
  | power_limit_store
  deriving DecidableEq, Repr

/-- One `struct kobj_attribute` built by `__ATTR(name, mode, show, store)`. -/
structure kobj_attribute where
  name : String
  mode : Nat
  show_fn : ShowFn
  store_fn : StoreFn
  deriving DecidableEq, Repr

/-- The fifteen attributes of `attrs[]`, in the order of the source. -/
def attrs : List kobj_attribute :=
  [ ⟨"total_energy_millijoules", 0o444, ShowFn.joules_show, StoreFn.no_store⟩,
    ⟨"current_power_milliwatts", 0o444, ShowFn.watts_show, StoreFn.no_store⟩,
    ⟨"thermal_spec_power_watts", 0o444, ShowFn.power_info_show, StoreFn.no_store⟩,
    ⟨"minimum_power_watts", 0o444, ShowFn.power_info_show, StoreFn.no_store⟩,
    ⟨"maximum_power_watts", 0o444, ShowFn.power_info_show, StoreFn.no_store⟩,
    ⟨"maximum_time_window_milliseconds", 0o444, ShowFn.power_info_show, StoreFn.no_store⟩,
    ⟨"power_limit_lock", 0o644, ShowFn.power_limit_show, StoreFn.power_limit_store⟩,
    ⟨"power_limit_1", 0o644, ShowFn.power_limit_show, StoreFn.power_limit_store⟩,
    ⟨"power_limit_2", 0o644, ShowFn.power_limit_show, StoreFn.power_limit_store⟩,
    ⟨"enable_limit_1", 0o644, ShowFn.power_limit_show, StoreFn.power_limit_store⟩,
    ⟨"enable_limit_2", 0o644, ShowFn.power_limit_show, StoreFn.power_limit_store⟩,
    ⟨"clamping_limit_1", 0o644, ShowFn.power_limit_show, StoreFn.power_limit_store⟩,
    ⟨"clamping_limit_2", 0o644, ShowFn.power_limit_show, StoreFn.power_limit_store⟩,
    ⟨"time_window_power_limit_1", 0o644, ShowFn.power_limit_show, StoreFn.power_limit_store⟩,
    ⟨"time_window_power_limit_2", 0o644, ShowFn.power_limit_show, StoreFn.power_limit_store⟩ ]

/-- The names of the attributes whose `store` callback is `no_store`. -/
def readonly_names : List String :=
  (attrs.filter (fun a => a.store_fn = StoreFn.no_store)).map (fun a => a.name)

/-- A write to the attribute `name` as the table dispatches it: the
returned `ssize_t`, the file-scope variables afterwards, and the calls of
the register write primitive.  `none` when the table has no such attribute.
The arguments `userinput`, `currentval` and `writeerror` are those of
`power_limit_store`. -/
def attr_store (s : State) (name buf : String) (userinput currentval : Nat)
    (writeerror : Int) (count : Nat) : Option (Int × State × List (Nat × Nat × Nat)) :=
  match attrs.find? (fun a => a.name = name) with
  | none => none
  | some a =>
    match a.store_fn with
    | StoreFn.no_store => some (no_store s name buf count)
    | StoreFn.power_limit_store =>
      some ((power_limit_store name userinput currentval writeerror count).1, s,
        (power_limit_store name userinput currentval writeerror count).2)

/-! ## The statements of the timer callback, one at a time -/

/-- First statement of `update_watts_timer`: `mod_timer`. -/
def tick_arm (s : State) : State :=
  { s with timer_pending := true }

/-- Second statement of `update_watts_timer`: `energystart = energyend`. -/
def tick_shift (s : State) : State :=
  { s with energystart := s.energyend }

/-- Third statement of `update_watts_timer`:
`rdmsrl(MSR_PKG_ENERGY_STATUS, energyend)`. -/
def tick_read (s : State) (msr : Nat) : State :=
  { s with energyend := msr }

/-- The file-scope variables after the first `n` statements of one run of
`update_watts_timer` that starts in `s` and reads `msr`: `n = 0` is before
the callback, `n ≥ 3` is after it. -/
def tick_after (s : State) (msr : Nat) : Nat → State
  | 0 => s
  | 1 => tick_arm s
  | 2 => tick_shift (tick_arm s)
  | _ => tick_read (tick_shift (tick_arm s)) msr

/-- The C `watts_show` running while one timer callback runs, with no lock
between them.  `watts_show` loads three file-scope variables one by one:
`energy_unit_type` for the test, then `energyend` and `energystart` for the
two operands of the subtraction, whose order C leaves open.  The load of
`energy_unit_type` sees the variables after `k` statements of the callback,
the load of `energyend` after `i` statements, the load of `energystart`
after `j` statements. -/
def watts_show_loads (s : State) (msr : Nat) (k i j : Nat) : Printed :=
  if (tick_after s msr k).energy_unit_type = rapl_unit.UNIT_UNKNOWN then Printed.sentinel
  else
    Printed.unsigned (u32_of_int
      (to_millijoules (u32_of_u64 (tick_after s msr i).energyend)
        - to_millijoules (u32_of_u64 (tick_after s msr j).energystart)))

/-! ## Formulas of the specification, for comparison -/

/-- The specification's `set`, with a bitwise or:
`((mask & newFieldValue) << offset) | (registerValue & ~(mask << offset))`
on 64-bit values. -/
def spec_set (registerValue offset mask newFieldValue : Nat) : Nat :=
  shl64 (mask &&& newFieldValue) offset ||| (registerValue &&& not64 (shl64 mask offset))

/-- The specification's naive conversion `raw * 153 / 10000`, evaluated on
unbounded integers and truncated once at the end. -/
def naive_millijoules (raw : Nat) : Nat :=
  raw * 153 / 10000

/-! ## Auxiliary facts on bit operations -/

theorem add_eq_or_of_and_eq_zero : ∀ (a b : Nat), a &&& b = 0 → a + b = a ||| b := by
  intro a
  induction a using Nat.strong_induction_on with
  | _ a ih =>
    intro b h
    by_cases ha : a = 0
    · subst ha; simp
    · have h2 : (a / 2) &&& (b / 2) = 0 := by
        rw [← Nat.and_div_two, h]
      have hr := ih (a / 2) (by omega) (b / 2) h2
      have hd : (a ||| b) / 2 = a / 2 ||| b / 2 := Nat.or_div_two
      have t0 : (a &&& b).testBit 0 = false := by rw [h]; simp
      have o0 : (a ||| b).testBit 0 = (a.testBit 0 || b.testBit 0) := Nat.testBit_or a b 0
      rw [Nat.testBit_and] at t0
      simp only [Nat.testBit_zero] at t0 o0
      rcases Nat.mod_two_eq_zero_or_one a with h1 | h1 <;>
      rcases Nat.mod_two_eq_zero_or_one b with h3 | h3 <;>
      rcases Nat.mod_two_eq_zero_or_one (a ||| b) with h4 | h4 <;>
      simp [h1, h3, h4] at t0 o0 <;> omega

theorem size_two_pow_sub_one (w : Nat) : Nat.size (2 ^ w - 1) = w := by
  apply le_antisymm
  · rw [Nat.size_le]
    have := Nat.two_pow_pos w
    omega
  · cases w with
    | zero => exact Nat.zero_le _
    | succ k =>
      have h : k < Nat.size (2 ^ (k + 1) - 1) := by
        rw [Nat.lt_size]
        have := Nat.two_pow_pos k
        rw [Nat.pow_succ]
        omega
      omega

theorem mask_shift_lt (o w : Nat) (h : o + w ≤ 64) (x : Nat) :
    ((2 ^ w - 1) &&& x) <<< o < 2 ^ 64 := by
  have h1 : (2 ^ w - 1) &&& x < 2 ^ w := by
    rw [Nat.and_comm]
    exact Nat.and_lt_two_pow x (by have := Nat.two_pow_pos w; omega)
  rw [Nat.shiftLeft_eq]
  calc ((2 ^ w - 1) &&& x) * 2 ^ o < 2 ^ w * 2 ^ o :=
        Nat.mul_lt_mul_of_pos_right h1 (Nat.two_pow_pos o)
    _ = 2 ^ (w + o) := (Nat.pow_add 2 w o).symm
    _ ≤ 2 ^ 64 := Nat.pow_le_pow_right (by decide) (by omega)

theorem shl64_mask_and (o w : Nat) (h : o + w ≤ 64) (x : Nat) :
    shl64 ((2 ^ w - 1) &&& x) o = ((2 ^ w - 1) &&& x) <<< o := by
  unfold shl64
  exact Nat.mod_eq_of_lt (mask_shift_lt o w h x)

theorem shl64_mask (o w : Nat) (h : o + w ≤ 64) :
    shl64 (2 ^ w - 1) o = (2 ^ w - 1) <<< o := by
  have := shl64_mask_and o w h (2 ^ w - 1)
  rwa [Nat.and_self] at this

theorem testBit_not64 (x i : Nat) (hx : x < 2 ^ 64) :
    (not64 x).testBit i = (decide (i < 64) && !x.testBit i) := by
  unfold not64
  rw [Nat.mod_eq_of_lt hx]
  have e : 2 ^ 64 - 1 - x = 2 ^ 64 - (x + 1) := by omega
  rw [e]
  exact Nat.testBit_two_pow_sub_succ hx i

theorem testBit_mask_shift (o w i : Nat) :
    ((2 ^ w - 1) <<< o).testBit i = (decide (o ≤ i) && decide (i < o + w)) := by
  rw [Nat.testBit_shiftLeft, Nat.testBit_two_pow_sub_one]
  by_cases h1 : o ≤ i <;> by_cases h2 : i < o + w <;> simp [h1, h2] <;> omega

theorem testBit_u64 (r i : Nat) (hr : r < 2 ^ 64) :
    (r.testBit i && decide (i < 64)) = r.testBit i := by
  by_cases h : i < 64
  · simp [h]
  · have : r.testBit i = false := Nat.testBit_lt_two_pow
      (lt_of_lt_of_le hr (Nat.pow_le_pow_right (by decide) (by omega)))
    simp [this]

/-- The two summands of `newval` share no bit, so the `u64` addition is a
bitwise or. -/
theorem field_newval_eq_or (o w : Nat) (h : o + w ≤ 64) (r v : Nat) (hr : r < 2 ^ 64) :
    add64 (shl64 ((2 ^ w - 1) &&& v) o) (r &&& not64 (shl64 (2 ^ w - 1) o))
      = ((2 ^ w - 1) &&& v) <<< o ||| (r &&& not64 ((2 ^ w - 1) <<< o)) := by
  rw [shl64_mask_and o w h, shl64_mask o w h]
  have hm : (2 ^ w - 1) <<< o < 2 ^ 64 := by
    have := mask_shift_lt o w h (2 ^ w - 1)
    rwa [Nat.and_self] at this
  have hdisj : (((2 ^ w - 1) &&& v) <<< o) &&& (r &&& not64 ((2 ^ w - 1) <<< o)) = 0 := by
    apply Nat.eq_of_testBit_eq
    intro i
    simp only [Nat.testBit_and, testBit_not64 _ _ hm, testBit_mask_shift, Nat.testBit_shiftLeft,
      Nat.testBit_two_pow_sub_one, Nat.zero_testBit]
    by_cases h1 : o ≤ i
    · by_cases h2 : i < o + w
      · have h3 : i - o < w := by omega
        simp [h1, h2, h3]
      · have h3 : ¬ (i - o < w) := by omega
        simp [h1, h2, h3]
    · simp [h1]
  unfold add64
  rw [add_eq_or_of_and_eq_zero _ _ hdisj]
  apply Nat.mod_eq_of_lt
  apply Nat.or_lt_two_pow (mask_shift_lt o w h v)
  rw [Nat.and_comm]
  exact Nat.and_lt_two_pow _ hr

/-- Bit `i` of `newval`: inside the field it is the bit of the written
value, outside it is the bit of the old register value. -/
theorem testBit_field_newval (o w : Nat) (h : o + w ≤ 64) (r v : Nat) (hr : r < 2 ^ 64)
    (i : Nat) :
    (add64 (shl64 ((2 ^ w - 1) &&& v) o) (r &&& not64 (shl64 (2 ^ w - 1) o))).testBit i
      = if o ≤ i ∧ i < o + w then v.testBit (i - o) else r.testBit i := by
  rw [field_newval_eq_or o w h r v hr]
  have hm : (2 ^ w - 1) <<< o < 2 ^ 64 := by
    have := mask_shift_lt o w h (2 ^ w - 1)
    rwa [Nat.and_self] at this
  have h64 := testBit_u64 r i hr
  simp only [Nat.testBit_or, Nat.testBit_and, testBit_not64 _ _ hm, testBit_mask_shift,
    Nat.testBit_shiftLeft, Nat.testBit_two_pow_sub_one]
  by_cases h1 : o ≤ i
  · by_cases h2 : i < o + w
    · have h3 : i - o < w := by omega
      simp [h1, h2, h3]
    · have h3 : ¬ (i - o < w) := by omega
      simp [h1, h2, h3, h64]
  · simp [h1, h64]

/-- Reading the field back from `newval` gives the written value masked. -/
theorem get_field_newval (o w : Nat) (h : o + w ≤ 64) (r v : Nat) (hr : r < 2 ^ 64) :
    ((add64 (shl64 ((2 ^ w - 1) &&& v) o) (r &&& not64 (shl64 (2 ^ w - 1) o))) >>> o)
      &&& (2 ^ w - 1) = v &&& (2 ^ w - 1) := by
  apply Nat.eq_of_testBit_eq
  intro i
  rw [Nat.testBit_and, Nat.testBit_shiftRight, testBit_field_newval o w h r v hr,
    Nat.testBit_and, Nat.testBit_two_pow_sub_one]
  by_cases h2 : i < w
  · have h3 : o ≤ o + i ∧ o + i < o + w := ⟨by omega, by omega⟩
    have h4 : o + i - o = i := by omega
    simp [h2, h3, h4]
  · simp [h2]

/-- Reading a field that lies apart from the written one gives what it gave
before the write. -/
theorem get_other_field_newval (o w : Nat) (h : o + w ≤ 64) (r v : Nat) (hr : r < 2 ^ 64)
    (o2 w2 : Nat) (hd : o2 + w2 ≤ o ∨ o + w ≤ o2) :
    ((add64 (shl64 ((2 ^ w - 1) &&& v) o) (r &&& not64 (shl64 (2 ^ w - 1) o))) >>> o2)
      &&& (2 ^ w2 - 1) = (r >>> o2) &&& (2 ^ w2 - 1) := by
  apply Nat.eq_of_testBit_eq
  intro i
  rw [Nat.testBit_and, Nat.testBit_shiftRight, testBit_field_newval o w h r v hr,
    Nat.testBit_and, Nat.testBit_shiftRight, Nat.testBit_two_pow_sub_one]
  by_cases h2 : i < w2
  · have h3 : ¬ (o ≤ o2 + i ∧ o2 + i < o + w) := by omega
    simp [h2, h3]
  · simp [h2]

/-! ## The power-limit layout -/

theorem limit_names_cases (name : String) (hn : name ∈ limit_names) :
    name = "power_limit_lock" ∨ name = "power_limit_1" ∨ name = "power_limit_2"
    ∨ name = "enable_limit_1" ∨ name = "enable_limit_2" ∨ name = "clamping_limit_1"
    ∨ name = "clamping_limit_2" ∨ name = "time_window_power_limit_1"
    ∨ name = "time_window_power_limit_2" := by
  simpa only [limit_names, List.mem_cons, List.mem_singleton, List.not_mem_nil, or_false]
    using hn

/-- The `(offset, width)` pair of each of the nine fields; `power_limit_show`
reads exactly the field that `power_limit_store` writes. -/
theorem limit_field_range : ∀ name ∈ limit_names, ∃ o w,
    power_limit_field name = (o, 2 ^ w - 1)
    ∧ (∀ x, power_limit_show name x = Printed.unsigned ((x >>> o) &&& (2 ^ w - 1)))
    ∧ (o, w) ∈ [(63, 1), (0, 15), (32, 15), (15, 1), (47, 1), (16, 1), (48, 1), (17, 7),
        (49, 7)] := by
  intro name hn
  rcases limit_names_cases name hn with h | h | h | h | h | h | h | h | h
  · rw [h]; exact ⟨63, 1, rfl, fun _ => rfl, by decide⟩
  · rw [h]; exact ⟨0, 15, rfl, fun _ => rfl, by decide⟩
  · rw [h]; exact ⟨32, 15, rfl, fun _ => rfl, by decide⟩
  · rw [h]; exact ⟨15, 1, rfl, fun _ => rfl, by decide⟩
  · rw [h]; exact ⟨47, 1, rfl, fun _ => rfl, by decide⟩
  · rw [h]; exact ⟨16, 1, rfl, fun _ => rfl, by decide⟩
  · rw [h]; exact ⟨48, 1, rfl, fun _ => rfl, by decide⟩
  · rw [h]; exact ⟨17, 7, rfl, fun _ => rfl, by decide⟩
  · rw [h]; exact ⟨49, 7, rfl, fun _ => rfl, by decide⟩

theorem limit_field_injective : ∀ f ∈ limit_names, ∀ g ∈ limit_names,
    power_limit_field f = power_limit_field g → f = g := by
  intro f hf g hg
  rcases limit_names_cases f hf with h | h | h | h | h | h | h | h | h <;>
    rcases limit_names_cases g hg with k | k | k | k | k | k | k | k | k <;>
    first
      | (intro _; exact h.trans k.symm)
      | (intro e; rw [h, k] at e; exact absurd e (by decide))

theorem ranges_apart : ∀ p ∈ [(63, 1), (0, 15), (32, 15), (15, 1), (47, 1), (16, 1), (48, 1),
      (17, 7), (49, 7)],
    ∀ q ∈ [(63, 1), (0, 15), (32, 15), (15, 1), (47, 1), (16, 1), (48, 1), (17, 7), (49, 7)],
    p ≠ q → q.1 + q.2 ≤ p.1 ∨ p.1 + p.2 ≤ q.1 := by
  decide

theorem ranges_fit : ∀ p ∈ [(63, 1), (0, 15), (32, 15), (15, 1), (47, 1), (16, 1), (48, 1),
      (17, 7), (49, 7)], p.1 + p.2 ≤ 64 := by
  decide

theorem newval_of_field (name : String) (o m : Nat) (hf : power_limit_field name = (o, m))
    (r v : Nat) :
    power_limit_newval name r v
      = add64 (shl64 (m &&& v) o) (r &&& not64 (shl64 m o)) := by
  unfold power_limit_newval
  rw [hf]

/-- Claim C1: for each of the nine power-limit fields, every 64-bit register
value `r` and every 32-bit written value `v`: reading the field from the
register value that `power_limit_store` computes returns `v` and-ed with the
field's mask, and every bit outside the field's bit range keeps the value it
has in `r`.  In particular `0x1FFFF` written into a 15-bit power-limit field
reads back as `0x7FFF`. -/
theorem power_limit_store_then_show :
    (∀ name ∈ limit_names, ∀ r v : Nat, r < 2 ^ 64 → v < 2 ^ 32 →
      power_limit_show name (power_limit_newval name r v)
          = Printed.unsigned (v &&& (power_limit_field name).2)
      ∧ ∀ i, (i < (power_limit_field name).1
            ∨ (power_limit_field name).1 + Nat.size (power_limit_field name).2 ≤ i) →
          (power_limit_newval name r v).testBit i = r.testBit i)
    ∧ (∀ r : Nat, r < 2 ^ 64 →
        power_limit_show "power_limit_1" (power_limit_newval "power_limit_1" r 0x1FFFF)
            = Printed.unsigned 0x7FFF
        ∧ power_limit_show "power_limit_2" (power_limit_newval "power_limit_2" r 0x1FFFF)
            = Printed.unsigned 0x7FFF) := by
  have main : ∀ name ∈ limit_names, ∀ r v : Nat, r < 2 ^ 64 →
      power_limit_show name (power_limit_newval name r v)
          = Printed.unsigned (v &&& (power_limit_field name).2)
      ∧ ∀ i, (i < (power_limit_field name).1
            ∨ (power_limit_field name).1 + Nat.size (power_limit_field name).2 ≤ i) →
          (power_limit_newval name r v).testBit i = r.testBit i := by
    intro name hn r v hr
    obtain ⟨o, w, hf, hs, hmem⟩ := limit_field_range name hn
    have h64 : o + w ≤ 64 := ranges_fit (o, w) hmem
    rw [newval_of_field name o _ hf, hf]
    refine ⟨?_, ?_⟩
    · rw [hs, get_field_newval o w h64 r v hr]
    · intro i hi
      rw [size_two_pow_sub_one] at hi
      rw [testBit_field_newval o w h64 r v hr, if_neg]
      intro hc
      rcases hi with hi | hi
      · exact absurd hc.1 (by exact Nat.not_le.mpr hi)
      · exact absurd hc.2 (by exact Nat.not_lt.mpr hi)
  refine ⟨fun name hn r v hr _ => main name hn r v hr, ?_⟩
  intro r hr
  have h1 := (main "power_limit_1" (by decide) r 0x1FFFF hr).1
  have h2 := (main "power_limit_2" (by decide) r 0x1FFFF hr).1
  exact ⟨h1, h2⟩

theorem power_limit_store_then_show_witness :
    power_limit_show "power_limit_1"
        (power_limit_newval "power_limit_1" 0xFFFFFFFFFFFFFFFF 0x1FFFF)
      = Printed.unsigned (0x1FFFF &&& (power_limit_field "power_limit_1").2) :=
  (power_limit_store_then_show.1 "power_limit_1" (by decide) 0xFFFFFFFFFFFFFFFF 0x1FFFF
    (by decide) (by decide)).1

/-- Two different names select fields whose bit ranges lie apart. -/
theorem limit_fields_apart (f g : String) (hf : f ∈ limit_names) (hg : g ∈ limit_names)
    (hne : f ≠ g) (o w o2 w2 : Nat) (ef : power_limit_field f = (o, 2 ^ w - 1))
    (eg : power_limit_field g = (o2, 2 ^ w2 - 1))
    (mf : (o, w) ∈ [(63, 1), (0, 15), (32, 15), (15, 1), (47, 1), (16, 1), (48, 1), (17, 7),
        (49, 7)])
    (mg : (o2, w2) ∈ [(63, 1), (0, 15), (32, 15), (15, 1), (47, 1), (16, 1), (48, 1), (17, 7),
        (49, 7)]) :
    o2 + w2 ≤ o ∨ o + w ≤ o2 := by
  have hpq : (o, w) ≠ (o2, w2) := by
    intro e
    apply hne
    apply limit_field_injective f hf g hg
    rw [ef, eg]
    have e1 : o = o2 := congrArg Prod.fst e
    have e2 : w = w2 := congrArg Prod.snd e
    rw [e1, e2]
  exact ranges_apart (o, w) mf (o2, w2) mg hpq

/-- Claim C2: the nine fields of the package power-limit layout fit the 64-bit
register (offset plus bit width of the mask is at most 64) and their shifted
masks are pairwise disjoint; so for two distinct fields `f` and `g`, what
`power_limit_show` reads for `g` from the register value computed by
`power_limit_store` for `f` is what it reads for `g` from the old value. -/
theorem power_limit_fields_disjoint_frame :
    (∀ f ∈ limit_names,
      (power_limit_field f).1 + Nat.size (power_limit_field f).2 ≤ 64)
    ∧ (∀ f ∈ limit_names, ∀ g ∈ limit_names, f ≠ g →
        ((power_limit_field f).2 <<< (power_limit_field f).1)
          &&& ((power_limit_field g).2 <<< (power_limit_field g).1) = 0)
    ∧ (∀ f ∈ limit_names, ∀ g ∈ limit_names, f ≠ g →
        ∀ r v : Nat, r < 2 ^ 64 → v < 2 ^ 32 →
          power_limit_show g (power_limit_newval f r v) = power_limit_show g r) := by
  refine ⟨?_, ?_, ?_⟩
  · intro f hf
    obtain ⟨o, w, ef, _, mf⟩ := limit_field_range f hf
    rw [ef, size_two_pow_sub_one]
    exact ranges_fit (o, w) mf
  · intro f hf g hg hne
    obtain ⟨o, w, ef, _, mf⟩ := limit_field_range f hf
    obtain ⟨o2, w2, eg, _, mg⟩ := limit_field_range g hg
    have hd := limit_fields_apart f g hf hg hne o w o2 w2 ef eg mf mg
    rw [ef, eg]
    apply Nat.eq_of_testBit_eq
    intro i
    rw [Nat.testBit_and, testBit_mask_shift, testBit_mask_shift, Nat.zero_testBit]
    by_cases h1 : o ≤ i ∧ i < o + w
    · have h2 : ¬ (o2 ≤ i ∧ i < o2 + w2) := by omega
      by_cases h3 : o2 ≤ i
      · have h4 : ¬ (i < o2 + w2) := fun h => h2 ⟨h3, h⟩
        simp [h4]
      · simp [h3]
    · by_cases h3 : o ≤ i
      · have h4 : ¬ (i < o + w) := fun h => h1 ⟨h3, h⟩
        simp [h4]
      · simp [h3]
  · intro f hf g hg hne r v hr _
    obtain ⟨o, w, ef, _, mf⟩ := limit_field_range f hf
    obtain ⟨o2, w2, eg, sg, mg⟩ := limit_field_range g hg
    have hd := limit_fields_apart f g hf hg hne o w o2 w2 ef eg mf mg
    have h64 : o + w ≤ 64 := ranges_fit (o, w) mf
    rw [newval_of_field f o _ ef, sg, sg, get_other_field_newval o w h64 r v hr o2 w2 hd]

theorem power_limit_fields_disjoint_frame_witness :
    power_limit_show "power_limit_2"
        (power_limit_newval "power_limit_1" 0x8000123400005678 0x1FFFF)
      = power_limit_show "power_limit_2" 0x8000123400005678 :=
  power_limit_fields_disjoint_frame.2.2 "power_limit_1" (by decide) "power_limit_2"
    (by decide) (by decide) 0x8000123400005678 0x1FFFF (by decide) (by decide)

/-- Claim C3: for every power-limit register value `r`, `power_limit_show`
prints the raw bits at the documented positions, with no unit conversion:
lock is bit 63, enable-limit-2 bit 47, clamping-limit-2 bit 48,
power-limit-2 bits 32-46, enable-limit-1 bit 15, clamping-limit-1 bit 16,
power-limit-1 bits 0-14, time-window-1 bits 17-23, time-window-2 bits
49-55. -/
theorem power_limit_show_raw_bits (r : Nat) :
    power_limit_show "power_limit_lock" r = Printed.unsigned (r / 2 ^ 63 % 2 ^ 1)
    ∧ power_limit_show "enable_limit_2" r = Printed.unsigned (r / 2 ^ 47 % 2 ^ 1)
    ∧ power_limit_show "clamping_limit_2" r = Printed.unsigned (r / 2 ^ 48 % 2 ^ 1)
    ∧ power_limit_show "power_limit_2" r = Printed.unsigned (r / 2 ^ 32 % 2 ^ 15)
    ∧ power_limit_show "enable_limit_1" r = Printed.unsigned (r / 2 ^ 15 % 2 ^ 1)
    ∧ power_limit_show "clamping_limit_1" r = Printed.unsigned (r / 2 ^ 16 % 2 ^ 1)
    ∧ power_limit_show "power_limit_1" r = Printed.unsigned (r / 2 ^ 0 % 2 ^ 15)
    ∧ power_limit_show "time_window_power_limit_1" r = Printed.unsigned (r / 2 ^ 17 % 2 ^ 7)
    ∧ power_limit_show "time_window_power_limit_2" r
        = Printed.unsigned (r / 2 ^ 49 % 2 ^ 7) := by
  have key : ∀ o w : Nat, (r >>> o) &&& (2 ^ w - 1) = r / 2 ^ o % 2 ^ w := by
    intro o w
    rw [Nat.and_pow_two_sub_one_eq_mod, Nat.shiftRight_eq_div_pow]
  refine ⟨?_, ?_, ?_, ?_, ?_, ?_, ?_, ?_, ?_⟩
  · exact congrArg Printed.unsigned (key 63 1)
  · exact congrArg Printed.unsigned (key 47 1)
  · exact congrArg Printed.unsigned (key 48 1)
  · exact congrArg Printed.unsigned (key 32 15)
  · exact congrArg Printed.unsigned (key 15 1)
  · exact congrArg Printed.unsigned (key 16 1)
  · exact congrArg Printed.unsigned (key 0 15)
  · exact congrArg Printed.unsigned (key 17 7)
  · exact congrArg Printed.unsigned (key 49 7)

/-! ## Unit conversion -/

theorem to_millijoules_eq (raw : Nat) (h : raw < 2 ^ 32) :
    to_millijoules raw = ((raw / 10000 * 153 + raw % 10000 * 153 / 10000 : Nat) : Int) := by
  unfold to_millijoules int_of_u32
  have h1 : raw / 10000 * 153 % 2 ^ 32 = raw / 10000 * 153 := Nat.mod_eq_of_lt (by omega)
  have h2 : raw % 10000 * 153 % 2 ^ 32 = raw % 10000 * 153 := Nat.mod_eq_of_lt (by omega)
  have h3 : (raw / 10000 * 153 + raw % 10000 * 153 / 10000) % 2 ^ 32
      = raw / 10000 * 153 + raw % 10000 * 153 / 10000 := Nat.mod_eq_of_lt (by omega)
  simp only [h1, h2, h3]
  rw [if_pos (by omega)]

theorem to_milliseconds_mod (raw : Nat) (h : raw < 2 ^ 32) :
    to_milliseconds raw
      = int_of_u32 (raw / 1000 * 976 + raw % 1000 * 976 / 1000) := by
  unfold to_milliseconds
  have h1 : raw / 1000 * 976 % 2 ^ 32 = raw / 1000 * 976 := Nat.mod_eq_of_lt (by omega)
  have h2 : raw % 1000 * 976 % 2 ^ 32 = raw % 1000 * 976 := Nat.mod_eq_of_lt (by omega)
  have h3 : (raw / 1000 * 976 + raw % 1000 * 976 / 1000) % 2 ^ 32
      = raw / 1000 * 976 + raw % 1000 * 976 / 1000 := Nat.mod_eq_of_lt (by omega)
  simp only [h1, h2, h3]

theorem u32_of_int_natCast (n : Nat) (h : n < 2 ^ 32) : u32_of_int (n : Int) = n := by
  unfold u32_of_int
  omega

theorem field_eq_div_mod (r o w : Nat) : (r >>> o) &&& (2 ^ w - 1) = r / 2 ^ o % 2 ^ w := by
  rw [Nat.and_pow_two_sub_one_eq_mod, Nat.shiftRight_eq_div_pow]

/-- Claim C4: for every power-info register value `r` and every unit state,
`power_info_show` prints bits 0-14, 16-30 and 32-46 of `r` divided by 8 for
the three power attributes when the power unit kind is known and the
sentinel otherwise; it prints `to_milliseconds` of bits 48-53 (a
non-negative value) for the time window when the time unit kind is known and
the sentinel otherwise.  Each attribute consults its own unit kind only. -/
theorem power_info_show_fields (s : State) (r : Nat) :
    power_info_show s "thermal_spec_power_watts" r
        = (if s.power_unit_type ≠ rapl_unit.UNIT_UNKNOWN
            then Printed.unsigned (r / 2 ^ 0 % 2 ^ 15 / 8) else Printed.sentinel)
    ∧ power_info_show s "minimum_power_watts" r
        = (if s.power_unit_type ≠ rapl_unit.UNIT_UNKNOWN
            then Printed.unsigned (r / 2 ^ 16 % 2 ^ 15 / 8) else Printed.sentinel)
    ∧ power_info_show s "maximum_power_watts" r
        = (if s.power_unit_type ≠ rapl_unit.UNIT_UNKNOWN
            then Printed.unsigned (r / 2 ^ 32 % 2 ^ 15 / 8) else Printed.sentinel)
    ∧ power_info_show s "maximum_time_window_milliseconds" r
        = (if s.time_unit_type ≠ rapl_unit.UNIT_UNKNOWN
            then Printed.unsigned (to_milliseconds (r / 2 ^ 48 % 2 ^ 6)).toNat
            else Printed.sentinel)
    ∧ 0 ≤ to_milliseconds (r / 2 ^ 48 % 2 ^ 6) := by
  have e0 : (r >>> THERMAL_SPEC_POWER_OFFSET) &&& THERMAL_SPEC_POWER_MASK
      = r / 2 ^ 0 % 2 ^ 15 := field_eq_div_mod r 0 15
  have e1 : (r >>> MINIMUM_POWER_OFFSET) &&& MINIMUM_POWER_MASK
      = r / 2 ^ 16 % 2 ^ 15 := field_eq_div_mod r 16 15
  have e2 : (r >>> MAXIMUM_POWER_OFFSET) &&& MAXIMUM_POWER_MASK
      = r / 2 ^ 32 % 2 ^ 15 := field_eq_div_mod r 32 15
  have e3 : (r >>> MAXIMUM_TIME_WINDOW_OFFSET) &&& MAXIMUM_TIME_WINDOW_MASK
      = r / 2 ^ 48 % 2 ^ 6 := field_eq_div_mod r 48 6
  have hlt : r / 2 ^ 48 % 2 ^ 6 < 2 ^ 32 := by omega
  have hms : to_milliseconds (r / 2 ^ 48 % 2 ^ 6)
      = ((r / 2 ^ 48 % 2 ^ 6 / 1000 * 976 + r / 2 ^ 48 % 2 ^ 6 % 1000 * 976 / 1000 : Nat)
          : Int) := by
    rw [to_milliseconds_mod _ hlt]
    unfold int_of_u32
    rw [if_pos (by omega)]
  have hcast : u32_of_u64 (r / 2 ^ 48 % 2 ^ 6) = r / 2 ^ 48 % 2 ^ 6 := by
    unfold u32_of_u64
    omega
  have hu : u32_of_int (to_milliseconds (r / 2 ^ 48 % 2 ^ 6))
      = (to_milliseconds (r / 2 ^ 48 % 2 ^ 6)).toNat := by
    rw [hms, u32_of_int_natCast _ (by omega), Int.toNat_ofNat]
  refine ⟨?_, ?_, ?_, ?_, ?_⟩
  · unfold power_info_show
    rw [e0]
    by_cases h : s.power_unit_type = rapl_unit.UNIT_UNKNOWN
    · simp [h]
    · simp [h]
  · unfold power_info_show
    rw [e1]
    by_cases h : s.power_unit_type = rapl_unit.UNIT_UNKNOWN
    · simp [h]
    · simp [h]
  · unfold power_info_show
    rw [e2]
    by_cases h : s.power_unit_type = rapl_unit.UNIT_UNKNOWN
    · simp [h]
    · simp [h]
  · unfold power_info_show
    rw [e3, hcast, hu]
    by_cases h : s.time_unit_type = rapl_unit.UNIT_UNKNOWN
    · simp [h]
    · simp [h]
  · rw [hms]
    exact Int.ofNat_nonneg _

/-- Claim C5: for every 32-bit `raw`, `to_millijoules raw` is the integer
`(raw / 10000) * 153 + ((raw mod 10000) * 153) / 10000`: neither product nor
the sum reaches `2^32`, and the sum stays below `2^31`, so the conversion to
`int` keeps the sign.  In particular `0`, `10000`, `20000` give `0`, `153`,
`306`, and `10000 * k` gives `153 * k`. -/
theorem to_millijoules_exact :
    (∀ raw : Nat, raw < 2 ^ 32 →
      to_millijoules raw = ((raw / 10000 * 153 + raw % 10000 * 153 / 10000 : Nat) : Int)
      ∧ raw / 10000 * 153 < 2 ^ 32
      ∧ raw % 10000 * 153 < 2 ^ 32
      ∧ raw / 10000 * 153 + raw % 10000 * 153 / 10000 < 2 ^ 31)
    ∧ to_millijoules 0 = 0
    ∧ to_millijoules 10000 = 153
    ∧ to_millijoules 20000 = 306
    ∧ (∀ k : Nat, 10000 * k < 2 ^ 32 → to_millijoules (10000 * k) = ((153 * k : Nat) : Int)) := by
  refine ⟨?_, by decide, by decide, by decide, ?_⟩
  · intro raw h
    exact ⟨to_millijoules_eq raw h, by omega, by omega, by omega⟩
  · intro k hk
    rw [to_millijoules_eq _ hk]
    congr 1
    omega

theorem to_millijoules_exact_witness :
    to_millijoules 4294967295
      = ((4294967295 / 10000 * 153 + 4294967295 % 10000 * 153 / 10000 : Nat) : Int) :=
  (to_millijoules_exact.1 4294967295 (by decide)).1

/-- Claim C6 fails as stated: at `raw = 2^32 - 1` the sum is `4191888079`,
which is not below `2^31`; the `int` that `to_milliseconds` returns is
`-103079217`. -/
theorem to_milliseconds_large_counterexample :
    (4294967295 : Nat) < 2 ^ 32
    ∧ to_milliseconds 4294967295 = -103079217
    ∧ to_milliseconds 4294967295
        ≠ ((4294967295 / 1000 * 976 + 4294967295 % 1000 * 976 / 1000 : Nat) : Int) := by
  decide

/-- Claim C6, amended: for every 32-bit `raw` below `2200290623`,
`to_milliseconds raw` is the integer
`(raw / 1000) * 976 + ((raw mod 1000) * 976) / 1000`; from `2200290623` on,
the conversion to `int` makes it that integer minus `2^32`.  In particular
`1000` gives `976` and `2000` gives `1952`. -/
theorem to_milliseconds_exact_below :
    (∀ raw : Nat, raw < 2 ^ 32 →
      (raw < 2200290623 →
        to_milliseconds raw = ((raw / 1000 * 976 + raw % 1000 * 976 / 1000 : Nat) : Int))
      ∧ (2200290623 ≤ raw →
        to_milliseconds raw
          = ((raw / 1000 * 976 + raw % 1000 * 976 / 1000 : Nat) : Int) - 2 ^ 32))
    ∧ to_milliseconds 1000 = 976
    ∧ to_milliseconds 2000 = 1952 := by
  refine ⟨?_, by decide, by decide⟩
  intro raw h
  rw [to_milliseconds_mod raw h]
  unfold int_of_u32
  constructor
  · intro hlt
    rw [if_pos (by omega)]
  · intro hge
    rw [if_neg (by omega)]

theorem to_milliseconds_exact_below_witness :
    to_milliseconds 2200290622
      = ((2200290622 / 1000 * 976 + 2200290622 % 1000 * 976 / 1000 : Nat) : Int) :=
  (to_milliseconds_exact_below.1 2200290622 (by decide)).1 (by decide)

/-! ## Unit detection -/

theorem rapl_check_unit_sandy_bridge (s : State) (x86 x86_model u : Nat)
    (hf : x86 = 0x06) (hm : x86_model = 0x2A ∨ x86_model = 0x2D) :
    rapl_check_unit s x86 x86_model u
      = (0,
        { s with
          energy_unit_type :=
            if u / 2 ^ 8 % 2 ^ 5 = 0x10 then rapl_unit.ENERGY_UNIT_DEFAULT
            else rapl_unit.UNIT_UNKNOWN
          power_unit_type :=
            if u / 2 ^ 0 % 2 ^ 4 = 0x3 then rapl_unit.POWER_UNIT_DEFAULT
            else rapl_unit.UNIT_UNKNOWN
          time_unit_type :=
            if u / 2 ^ 16 % 2 ^ 4 = 0xA then rapl_unit.TIME_UNIT_DEFAULT
            else rapl_unit.UNIT_UNKNOWN }) := by
  have e0 : (u >>> POWER_UNIT_OFFSET) &&& POWER_UNIT_MASK = u / 2 ^ 0 % 2 ^ 4 :=
    field_eq_div_mod u 0 4
  have e1 : (u >>> ENERGY_UNIT_OFFSET) &&& ENERGY_UNIT_MASK = u / 2 ^ 8 % 2 ^ 5 :=
    field_eq_div_mod u 8 5
  have e2 : (u >>> TIME_UNIT_OFFSET) &&& TIME_UNIT_MASK = u / 2 ^ 16 % 2 ^ 4 :=
    field_eq_div_mod u 16 4
  unfold rapl_check_unit
  rw [e0, e1, e2, if_neg]
  intro hc
  rcases hc with hc | hc
  · exact hc hf
  · rcases hm with hm | hm
    · exact hc.1 hm
    · exact hc.2 hm

/-- Claim C7: on a Sandy Bridge signature (family `0x06`, model `0x2A` or
`0x2D`), for every unit-register value `u`, `rapl_check_unit` returns `0` and
sets each kind on its own: power is Default iff bits 0-3 of `u` are `0x3`,
energy is Default iff bits 8-12 are `0x10`, time is Default iff bits 16-19
are `0xA`, and a kind is Unknown otherwise.  So `0xA1003` gives three
Default kinds, and changing one sub-field of `0xA1003` makes exactly that
kind Unknown. -/
theorem rapl_check_unit_kinds (s : State) (x86 x86_model : Nat)
    (hf : x86 = 0x06) (hm : x86_model = 0x2A ∨ x86_model = 0x2D) :
    (∀ u : Nat,
      (rapl_check_unit s x86 x86_model u).1 = 0
      ∧ ((rapl_check_unit s x86 x86_model u).2.power_unit_type
            = rapl_unit.POWER_UNIT_DEFAULT ↔ u / 2 ^ 0 % 2 ^ 4 = 0x3)
      ∧ ((rapl_check_unit s x86 x86_model u).2.power_unit_type
            = rapl_unit.UNIT_UNKNOWN ↔ u / 2 ^ 0 % 2 ^ 4 ≠ 0x3)
      ∧ ((rapl_check_unit s x86 x86_model u).2.energy_unit_type
            = rapl_unit.ENERGY_UNIT_DEFAULT ↔ u / 2 ^ 8 % 2 ^ 5 = 0x10)
      ∧ ((rapl_check_unit s x86 x86_model u).2.energy_unit_type
            = rapl_unit.UNIT_UNKNOWN ↔ u / 2 ^ 8 % 2 ^ 5 ≠ 0x10)
      ∧ ((rapl_check_unit s x86 x86_model u).2.time_unit_type
            = rapl_unit.TIME_UNIT_DEFAULT ↔ u / 2 ^ 16 % 2 ^ 4 = 0xA)
      ∧ ((rapl_check_unit s x86 x86_model u).2.time_unit_type
            = rapl_unit.UNIT_UNKNOWN ↔ u / 2 ^ 16 % 2 ^ 4 ≠ 0xA))
    ∧ ((rapl_check_unit s x86 x86_model 0xA1003).2.power_unit_type
          = rapl_unit.POWER_UNIT_DEFAULT
      ∧ (rapl_check_unit s x86 x86_model 0xA1003).2.energy_unit_type
          = rapl_unit.ENERGY_UNIT_DEFAULT
      ∧ (rapl_check_unit s x86 x86_model 0xA1003).2.time_unit_type
          = rapl_unit.TIME_UNIT_DEFAULT)
    ∧ (∀ p : Nat, p < 2 ^ 4 → p ≠ 0x3 →
        (rapl_check_unit s x86 x86_model (0xA1000 + p)).2.power_unit_type
          = rapl_unit.UNIT_UNKNOWN
        ∧ (rapl_check_unit s x86 x86_model (0xA1000 + p)).2.energy_unit_type
          = rapl_unit.ENERGY_UNIT_DEFAULT
        ∧ (rapl_check_unit s x86 x86_model (0xA1000 + p)).2.time_unit_type
          = rapl_unit.TIME_UNIT_DEFAULT)
    ∧ (∀ e : Nat, e < 2 ^ 5 → e ≠ 0x10 →
        (rapl_check_unit s x86 x86_model (0xA0003 + e * 2 ^ 8)).2.power_unit_type
          = rapl_unit.POWER_UNIT_DEFAULT
        ∧ (rapl_check_unit s x86 x86_model (0xA0003 + e * 2 ^ 8)).2.energy_unit_type
          = rapl_unit.UNIT_UNKNOWN
        ∧ (rapl_check_unit s x86 x86_model (0xA0003 + e * 2 ^ 8)).2.time_unit_type
          = rapl_unit.TIME_UNIT_DEFAULT)
    ∧ (∀ t : Nat, t < 2 ^ 4 → t ≠ 0xA →
        (rapl_check_unit s x86 x86_model (0x1003 + t * 2 ^ 16)).2.power_unit_type
          = rapl_unit.POWER_UNIT_DEFAULT
        ∧ (rapl_check_unit s x86 x86_model (0x1003 + t * 2 ^ 16)).2.energy_unit_type
          = rapl_unit.ENERGY_UNIT_DEFAULT
        ∧ (rapl_check_unit s x86 x86_model (0x1003 + t * 2 ^ 16)).2.time_unit_type
          = rapl_unit.UNIT_UNKNOWN) := by
  refine ⟨?_, ?_, ?_, ?_, ?_⟩
  · intro u
    rw [rapl_check_unit_sandy_bridge s x86 x86_model u hf hm]
    refine ⟨rfl, ?_, ?_, ?_, ?_, ?_, ?_⟩
    · by_cases h : u / 2 ^ 0 % 2 ^ 4 = 0x3 <;> simp [h]
    · by_cases h : u / 2 ^ 0 % 2 ^ 4 = 0x3 <;> simp [h]
    · by_cases h : u / 2 ^ 8 % 2 ^ 5 = 0x10 <;> simp [h]
    · by_cases h : u / 2 ^ 8 % 2 ^ 5 = 0x10 <;> simp [h]
    · by_cases h : u / 2 ^ 16 % 2 ^ 4 = 0xA <;> simp [h]
    · by_cases h : u / 2 ^ 16 % 2 ^ 4 = 0xA <;> simp [h]
  · rw [rapl_check_unit_sandy_bridge s x86 x86_model _ hf hm]
    exact ⟨rfl, rfl, rfl⟩
  · intro p hp hne
    rw [rapl_check_unit_sandy_bridge s x86 x86_model _ hf hm]
    have h0 : (0xA1000 + p) / 2 ^ 0 % 2 ^ 4 ≠ 0x3 := by omega
    have h1 : (0xA1000 + p) / 2 ^ 8 % 2 ^ 5 = 0x10 := by omega
    have h2 : (0xA1000 + p) / 2 ^ 16 % 2 ^ 4 = 0xA := by omega
    exact ⟨if_neg h0, if_pos h1, if_pos h2⟩
  · intro e he hne
    rw [rapl_check_unit_sandy_bridge s x86 x86_model _ hf hm]
    have h0 : (0xA0003 + e * 2 ^ 8) / 2 ^ 0 % 2 ^ 4 = 0x3 := by omega
    have h1 : (0xA0003 + e * 2 ^ 8) / 2 ^ 8 % 2 ^ 5 ≠ 0x10 := by omega
    have h2 : (0xA0003 + e * 2 ^ 8) / 2 ^ 16 % 2 ^ 4 = 0xA := by omega
    exact ⟨if_pos h0, if_neg h1, if_pos h2⟩
  · intro t ht hne
    rw [rapl_check_unit_sandy_bridge s x86 x86_model _ hf hm]
    have h0 : (0x1003 + t * 2 ^ 16) / 2 ^ 0 % 2 ^ 4 = 0x3 := by omega
    have h1 : (0x1003 + t * 2 ^ 16) / 2 ^ 8 % 2 ^ 5 = 0x10 := by omega
    have h2 : (0x1003 + t * 2 ^ 16) / 2 ^ 16 % 2 ^ 4 ≠ 0xA := by omega
    exact ⟨if_pos h0, if_pos h1, if_neg h2⟩

theorem rapl_check_unit_kinds_witness :
    (rapl_check_unit zero_state 0x06 0x2D 0xA1003).2.power_unit_type
        = rapl_unit.POWER_UNIT_DEFAULT
    ∧ (rapl_check_unit zero_state 0x06 0x2D 0xA1003).2.energy_unit_type
        = rapl_unit.ENERGY_UNIT_DEFAULT
    ∧ (rapl_check_unit zero_state 0x06 0x2D 0xA1003).2.time_unit_type
        = rapl_unit.TIME_UNIT_DEFAULT :=
  (rapl_check_unit_kinds zero_state 0x06 0x2D rfl (Or.inr rfl)).2.1

/-! ## Module start-up on an unsupported processor -/

theorem rapl_check_unit_other_cpu (s : State) (x86 x86_model u : Nat)
    (h : x86 ≠ 0x06 ∨ (x86_model ≠ 0x2A ∧ x86_model ≠ 0x2D)) :
    rapl_check_unit s x86 x86_model u
      = (-ENODEV,
        { s with
          energy_unit_type := rapl_unit.UNIT_UNKNOWN
          power_unit_type := rapl_unit.UNIT_UNKNOWN
          time_unit_type := rapl_unit.UNIT_UNKNOWN }) := by
  unfold rapl_check_unit
  rw [if_pos h]

theorem powerinfoinit_other_cpu (s : State) (b : Boot)
    (h : b.x86 ≠ 0x06 ∨ (b.x86_model ≠ 0x2A ∧ b.x86_model ≠ 0x2D)) :
    powerinfoinit s b
      = (-ENODEV,
        { s with
          energy_unit_type := rapl_unit.UNIT_UNKNOWN
          power_unit_type := rapl_unit.UNIT_UNKNOWN
          time_unit_type := rapl_unit.UNIT_UNKNOWN }) := by
  unfold powerinfoinit
  rw [rapl_check_unit_other_cpu s b.x86 b.x86_model b.msr_rapl_power_unit h]
  rfl

theorem power_info_show_unknown (s : State) (name : String) (x : Nat)
    (hp : s.power_unit_type = rapl_unit.UNIT_UNKNOWN)
    (ht : s.time_unit_type = rapl_unit.UNIT_UNKNOWN) :
    power_info_show s name x = Printed.sentinel := by
  unfold power_info_show
  simp [hp, ht]

/-- Claim C8: `rapl_check_unit` returns `-ENODEV` exactly when the family is
not `0x06` or the model is neither `0x2A` nor `0x2D`.  In that case the three
unit kinds are Unknown whatever the unit register holds, `powerinfoinit`
returns `-ENODEV` without seeding the sample pair or arming the timer, and
in the resulting state each of the six read-only attributes prints the
sentinel for every register value. -/
theorem unsupported_cpu_fails_closed :
    (∀ (s : State) (x86 x86_model u : Nat),
      (rapl_check_unit s x86 x86_model u).1 = -ENODEV
        ↔ (x86 ≠ 0x06 ∨ (x86_model ≠ 0x2A ∧ x86_model ≠ 0x2D)))
    ∧ (∀ (s : State) (b : Boot),
        (b.x86 ≠ 0x06 ∨ (b.x86_model ≠ 0x2A ∧ b.x86_model ≠ 0x2D)) →
        (rapl_check_unit s b.x86 b.x86_model b.msr_rapl_power_unit).2.energy_unit_type
            = rapl_unit.UNIT_UNKNOWN
        ∧ (rapl_check_unit s b.x86 b.x86_model b.msr_rapl_power_unit).2.power_unit_type
            = rapl_unit.UNIT_UNKNOWN
        ∧ (rapl_check_unit s b.x86 b.x86_model b.msr_rapl_power_unit).2.time_unit_type
            = rapl_unit.UNIT_UNKNOWN
        ∧ (powerinfoinit s b).1 = -ENODEV
        ∧ (powerinfoinit s b).2.timer_pending = s.timer_pending
        ∧ (powerinfoinit s b).2.energystart = s.energystart
        ∧ (powerinfoinit s b).2.energyend = s.energyend
        ∧ (∀ x, joules_show (powerinfoinit s b).2 x = Printed.sentinel)
        ∧ watts_show (powerinfoinit s b).2 = Printed.sentinel
        ∧ (∀ x, power_info_show (powerinfoinit s b).2 "thermal_spec_power_watts" x
            = Printed.sentinel)
        ∧ (∀ x, power_info_show (powerinfoinit s b).2 "minimum_power_watts" x
            = Printed.sentinel)
        ∧ (∀ x, power_info_show (powerinfoinit s b).2 "maximum_power_watts" x
            = Printed.sentinel)
        ∧ (∀ x, power_info_show (powerinfoinit s b).2 "maximum_time_window_milliseconds" x
            = Printed.sentinel)) := by
  constructor
  · intro s x86 x86_model u
    constructor
    · intro h
      by_contra hc
      have hf : x86 = 0x06 := by
        by_contra h1
        exact hc (Or.inl h1)
      have hm : x86_model = 0x2A ∨ x86_model = 0x2D := by
        by_contra h1
        exact hc (Or.inr ⟨fun h2 => h1 (Or.inl h2), fun h2 => h1 (Or.inr h2)⟩)
      rw [rapl_check_unit_sandy_bridge s x86 x86_model u hf hm] at h
      have h0 : (0 : Int) = -ENODEV := h
      exact absurd h0 (by decide)
    · intro h
      rw [rapl_check_unit_other_cpu s x86 x86_model u h]
  · intro s b h
    rw [rapl_check_unit_other_cpu s b.x86 b.x86_model b.msr_rapl_power_unit h,
      powerinfoinit_other_cpu s b h]
    refine ⟨rfl, rfl, rfl, rfl, rfl, rfl, rfl, ?_, ?_, ?_, ?_, ?_, ?_⟩
    · intro x
      simp [joules_show]
    · simp [watts_show]
    · intro x
      exact power_info_show_unknown _ _ x rfl rfl
    · intro x
      exact power_info_show_unknown _ _ x rfl rfl
    · intro x
      exact power_info_show_unknown _ _ x rfl rfl
    · intro x
      exact power_info_show_unknown _ _ x rfl rfl

theorem unsupported_cpu_fails_closed_witness :
    (powerinfoinit zero_state
        { x86 := 0x06, x86_model := 0x3A, msr_rapl_power_unit := 0xA1003,
          kobj_created := true, sysfs_retval := 0, msr_pkg_energy_status := 12345 }).1
      = -ENODEV :=
  (unsupported_cpu_fails_closed.2 zero_state
    { x86 := 0x06, x86_model := 0x3A, msr_rapl_power_unit := 0xA1003,
      kobj_created := true, sysfs_retval := 0, msr_pkg_energy_status := 12345 }
    (Or.inr ⟨by decide, by decide⟩)).2.2.2.1

/-! ## The energy sampler -/

theorem powerinfoinit_seeds (s : State) (b : Boot) (hf : b.x86 = 0x06)
    (hm : b.x86_model = 0x2A ∨ b.x86_model = 0x2D)
    (he : b.msr_rapl_power_unit / 2 ^ 8 % 2 ^ 5 = 0x10)
    (hk : b.kobj_created = true) (hs : b.sysfs_retval = 0) :
    (powerinfoinit s b).1 = 0
    ∧ (powerinfoinit s b).2.energy_unit_type = rapl_unit.ENERGY_UNIT_DEFAULT
    ∧ (powerinfoinit s b).2.energyend = b.msr_pkg_energy_status
    ∧ (powerinfoinit s b).2.energystart = sub64 b.msr_pkg_energy_status 1
    ∧ (powerinfoinit s b).2.timer_pending = true := by
  unfold powerinfoinit
  rw [rapl_check_unit_sandy_bridge s b.x86 b.x86_model b.msr_rapl_power_unit hf hm]
  have he2 : b.msr_rapl_power_unit / 256 % 32 = 16 := he
  simp [he2, hk, hs]

theorem to_millijoules_step (c : Nat) (hc : c < 2 ^ 32) (hpos : 0 < c) :
    to_millijoules c - to_millijoules (c - 1) = 0
    ∨ to_millijoules c - to_millijoules (c - 1) = 1 := by
  rw [to_millijoules_eq c hc, to_millijoules_eq (c - 1) (by omega)]
  omega

/-- Claim C9 fails as stated: start-up on a Sandy Bridge processor with unit
register `0xA1003` and an energy-status read of `0` seeds
`energyend = 0`, `energystart = 2^64 - 1`; the first `watts_show` computes
`to_millijoules 0 - to_millijoules 0xFFFFFFFF = -65712999` and prints it with
`"%u"` as `4229254297`. -/
theorem first_watts_read_counterexample :
    (powerinfoinit zero_state
        { x86 := 0x06, x86_model := 0x2A, msr_rapl_power_unit := 0xA1003,
          kobj_created := true, sysfs_retval := 0, msr_pkg_energy_status := 0 }).1 = 0
    ∧ (powerinfoinit zero_state
        { x86 := 0x06, x86_model := 0x2A, msr_rapl_power_unit := 0xA1003,
          kobj_created := true, sysfs_retval := 0, msr_pkg_energy_status := 0 }).2.energy_unit_type
        = rapl_unit.ENERGY_UNIT_DEFAULT
    ∧ (powerinfoinit zero_state
        { x86 := 0x06, x86_model := 0x2A, msr_rapl_power_unit := 0xA1003,
          kobj_created := true, sysfs_retval := 0, msr_pkg_energy_status := 0 }).2.energyend = 0
    ∧ (powerinfoinit zero_state
        { x86 := 0x06, x86_model := 0x2A, msr_rapl_power_unit := 0xA1003,
          kobj_created := true, sysfs_retval := 0, msr_pkg_energy_status := 0 }).2.energystart
        = 2 ^ 64 - 1
    ∧ watts_result (powerinfoinit zero_state
        { x86 := 0x06, x86_model := 0x2A, msr_rapl_power_unit := 0xA1003,
          kobj_created := true, sysfs_retval := 0, msr_pkg_energy_status := 0 }).2
        = -65712999
    ∧ watts_show (powerinfoinit zero_state
        { x86 := 0x06, x86_model := 0x2A, msr_rapl_power_unit := 0xA1003,
          kobj_created := true, sysfs_retval := 0, msr_pkg_energy_status := 0 }).2
        = Printed.unsigned 4229254297 := by
  decide

/-- Claim C9, amended: after a successful start-up with the energy unit kind
known and an energy-status read `c` whose low 32 bits are not all zero, the
pair is seeded with `energyend = c`, `energystart = c - 1`, and the first
`watts_show` prints `to_millijoules` of the low 32 bits of `c` minus
`to_millijoules` of the low 32 bits of `c - 1`, which is `0` or `1`, not
the sentinel. -/
theorem first_watts_read_small (s : State) (b : Boot) (hf : b.x86 = 0x06)
    (hm : b.x86_model = 0x2A ∨ b.x86_model = 0x2D)
    (he : b.msr_rapl_power_unit / 2 ^ 8 % 2 ^ 5 = 0x10)
    (hk : b.kobj_created = true) (hs : b.sysfs_retval = 0)
    (hc : b.msr_pkg_energy_status < 2 ^ 64)
    (hnz : b.msr_pkg_energy_status % 2 ^ 32 ≠ 0) :
    (powerinfoinit s b).2.energyend = b.msr_pkg_energy_status
    ∧ (powerinfoinit s b).2.energystart = b.msr_pkg_energy_status - 1
    ∧ watts_result (powerinfoinit s b).2
        = to_millijoules (b.msr_pkg_energy_status % 2 ^ 32)
          - to_millijoules ((b.msr_pkg_energy_status - 1) % 2 ^ 32)
    ∧ (watts_result (powerinfoinit s b).2 = 0 ∨ watts_result (powerinfoinit s b).2 = 1)
    ∧ watts_show (powerinfoinit s b).2
        = Printed.unsigned (watts_result (powerinfoinit s b).2).toNat
    ∧ (watts_show (powerinfoinit s b).2 = Printed.unsigned 0
        ∨ watts_show (powerinfoinit s b).2 = Printed.unsigned 1) := by
  obtain ⟨_, hkind, hend, hstart, _⟩ := powerinfoinit_seeds s b hf hm he hk hs
  have hsub : sub64 b.msr_pkg_energy_status 1 = b.msr_pkg_energy_status - 1 := by
    unfold sub64
    omega
  have hres : watts_result (powerinfoinit s b).2
      = to_millijoules (b.msr_pkg_energy_status % 2 ^ 32)
        - to_millijoules ((b.msr_pkg_energy_status - 1) % 2 ^ 32) := by
    unfold watts_result u32_of_u64
    rw [hend, hstart, hsub]
  have hlow : (b.msr_pkg_energy_status - 1) % 2 ^ 32 = b.msr_pkg_energy_status % 2 ^ 32 - 1 := by
    omega
  have hstep := to_millijoules_step (b.msr_pkg_energy_status % 2 ^ 32) (by omega) (by omega)
  rw [← hlow, ← hres] at hstep
  have hshow : watts_show (powerinfoinit s b).2
      = Printed.unsigned (u32_of_int (watts_result (powerinfoinit s b).2)) := by
    unfold watts_show
    rw [hkind]
    rfl
  refine ⟨hend, by rw [hstart, hsub], hres, hstep, ?_, ?_⟩
  · rw [hshow]
    rcases hstep with h0 | h1
    · rw [h0]; rfl
    · rw [h1]; rfl
  · rw [hshow]
    rcases hstep with h0 | h1
    · left; rw [h0]; rfl
    · right; rw [h1]; rfl

theorem first_watts_read_small_witness :
    watts_show (powerinfoinit zero_state
        { x86 := 0x06, x86_model := 0x2A, msr_rapl_power_unit := 0xA1003,
          kobj_created := true, sysfs_retval := 0, msr_pkg_energy_status := 654 }).2
        = Printed.unsigned 0
    ∨ watts_show (powerinfoinit zero_state
        { x86 := 0x06, x86_model := 0x2A, msr_rapl_power_unit := 0xA1003,
          kobj_created := true, sysfs_retval := 0, msr_pkg_energy_status := 654 }).2
        = Printed.unsigned 1 :=
  (first_watts_read_small zero_state
    { x86 := 0x06, x86_model := 0x2A, msr_rapl_power_unit := 0xA1003,
      kobj_created := true, sysfs_retval := 0, msr_pkg_energy_status := 654 }
    rfl (Or.inl rfl) (by decide) rfl rfl (by decide) (by decide)).2.2.2.2.2

theorem run_ticks_replicate (c : Nat) : ∀ (n : Nat) (s : State), s.energyend = c →
    (run_ticks s (List.replicate n c)).energyend = c
    ∧ (1 ≤ n → (run_ticks s (List.replicate n c)).energystart = c)
    ∧ (run_ticks s (List.replicate n c)).energy_unit_type = s.energy_unit_type := by
  intro n
  induction n with
  | zero =>
    intro s hs
    exact ⟨hs, fun h => absurd h (by decide), rfl⟩
  | succ k ih =>
    intro s hs
    have hstep : run_ticks s (List.replicate (k + 1) c)
        = run_ticks (update_watts_timer s c) (List.replicate k c) := rfl
    have hend : (update_watts_timer s c).energyend = c := rfl
    have hstart : (update_watts_timer s c).energystart = c := hs
    obtain ⟨h1, h2, h3⟩ := ih (update_watts_timer s c) hend
    rw [hstep]
    refine ⟨h1, ?_, h3⟩
    intro _
    cases k with
    | zero => exact hstart
    | succ j => exact h2 (Nat.succ_le_succ (Nat.zero_le j))

/-- Claim C10: a tick sets `energystart` to the old `energyend` and
`energyend` to the value just read.  So from a seeded pair
(`energyend = c`, `energystart = c - 1`) with the energy unit kind known,
after any `n ≥ 1` ticks that each read the unchanged value `c`, the pair is
`(c, c)` and `watts_show` prints `0`, which is `to_millijoules 1`. -/
theorem ticks_on_unchanged_counter :
    (∀ (s : State) (msr : Nat),
      (update_watts_timer s msr).energystart = s.energyend
      ∧ (update_watts_timer s msr).energyend = msr)
    ∧ (∀ (s : State) (c n : Nat), c < 2 ^ 64 → 1 ≤ n →
        s.energy_unit_type ≠ rapl_unit.UNIT_UNKNOWN →
        s.energyend = c → s.energystart = sub64 c 1 →
        (run_ticks s (List.replicate n c)).energystart = c
        ∧ (run_ticks s (List.replicate n c)).energyend = c
        ∧ watts_result (run_ticks s (List.replicate n c)) = 0
        ∧ watts_show (run_ticks s (List.replicate n c)) = Printed.unsigned 0
        ∧ 0 ≤ watts_result (run_ticks s (List.replicate n c)))
    ∧ to_millijoules 1 = 0 := by
  refine ⟨fun s msr => ⟨rfl, rfl⟩, ?_, by decide⟩
  intro s c n _ hn hkind hend _
  obtain ⟨h1, h2, h3⟩ := run_ticks_replicate c n s hend
  have hres : watts_result (run_ticks s (List.replicate n c)) = 0 := by
    unfold watts_result
    rw [h1, h2 hn]
    exact sub_self _
  refine ⟨h2 hn, h1, hres, ?_, by rw [hres]⟩
  unfold watts_show
  rw [h3, if_neg hkind, hres]
  rfl

theorem ticks_on_unchanged_counter_witness :
    watts_show (run_ticks
        (powerinfoinit zero_state
          { x86 := 0x06, x86_model := 0x2A, msr_rapl_power_unit := 0xA1003,
            kobj_created := true, sysfs_retval := 0, msr_pkg_energy_status := 0 }).2
        (List.replicate 3 0))
      = Printed.unsigned 0 :=
  (ticks_on_unchanged_counter.2.1
    (powerinfoinit zero_state
      { x86 := 0x06, x86_model := 0x2A, msr_rapl_power_unit := 0xA1003,
        kobj_created := true, sysfs_retval := 0, msr_pkg_energy_status := 0 }).2
    0 3 (by decide) (by decide) (by decide) (by decide) (by decide)).2.2.2.1

/-! ## Writes to the attributes -/

theorem power_limit_newval_lt (name : String) (r v : Nat) :
    power_limit_newval name r v < 2 ^ 64 := by
  unfold power_limit_newval add64
  exact Nat.mod_lt _ (Nat.two_pow_pos 64)

theorem halves_recombine (x : Nat) (hx : x < 2 ^ 64) :
    u32_of_u64 x + u32_of_u64 (x >>> 32) * 2 ^ 32 = x := by
  unfold u32_of_u64
  rw [Nat.shiftRight_eq_div_pow]
  omega

/-- Claim C11: for every attribute name, input and byte count,
`power_limit_store` returns the byte count (as the `ssize_t` it is converted
to, which is the count itself below `2^63`) when the register write reports
status `0`; for every non-zero status `st` it returns `-|st|`, a negative
value: a positive status is negated, a negative one is passed through.  The
write primitive is called exactly once whatever the status, with the two
halves of `newval`. -/
theorem power_limit_store_status (name : String) (userinput currentval count : Nat) :
    (power_limit_store name userinput currentval 0 count).1 = ssize_of_size count
    ∧ (count < 2 ^ 63 →
        (power_limit_store name userinput currentval 0 count).1 = (count : Int))
    ∧ (∀ st : Int, st ≠ 0 →
        (power_limit_store name userinput currentval st count).1 = -(abs st)
        ∧ (power_limit_store name userinput currentval st count).1 < 0
        ∧ (0 < st → (power_limit_store name userinput currentval st count).1 = -st)
        ∧ (st < 0 → (power_limit_store name userinput currentval st count).1 = st))
    ∧ (∀ st : Int,
        (power_limit_store name userinput currentval st count).2.length = 1
        ∧ ∃ lo hi : Nat,
            (power_limit_store name userinput currentval st count).2
              = [(MSR_PKG_RAPL_POWER_LIMIT, lo, hi)]
            ∧ lo + hi * 2 ^ 32 = power_limit_newval name currentval userinput) := by
  refine ⟨rfl, ?_, ?_, ?_⟩
  · intro hc
    show ssize_of_size count = (count : Int)
    unfold ssize_of_size
    rw [if_pos hc]
  · intro st hst
    have hval : (power_limit_store name userinput currentval st count).1
        = if st > 0 then -st else st := by
      unfold power_limit_store
      simp only []
      rw [if_pos hst]
    rw [hval]
    by_cases hpos : st > 0
    · rw [if_pos hpos, abs_of_pos hpos]
      exact ⟨rfl, by omega, fun _ => rfl, fun h => absurd hpos (by omega)⟩
    · have hneg : st < 0 := by omega
      rw [if_neg hpos, abs_of_neg hneg]
      exact ⟨by omega, hneg, fun h => absurd h hpos, fun _ => rfl⟩
  · intro st
    have hw : (power_limit_store name userinput currentval st count).2
        = [(MSR_PKG_RAPL_POWER_LIMIT,
            u32_of_u64 (power_limit_newval name currentval userinput),
            u32_of_u64 (power_limit_newval name currentval userinput >>> 32))] := by
      unfold power_limit_store
      simp only []
      by_cases hst : st ≠ 0
      · rw [if_pos hst]
      · rw [if_neg hst]
    rw [hw]
    exact ⟨rfl, _, _, rfl, halves_recombine _ (power_limit_newval_lt name currentval userinput)⟩

theorem power_limit_store_status_witness :
    (power_limit_store "power_limit_1" 100 0 5 4).1 = -(abs 5)
    ∧ (power_limit_store "power_limit_1" 100 0 5 4).1 < 0
    ∧ ((0 : Int) < 5 → (power_limit_store "power_limit_1" 100 0 5 4).1 = -5)
    ∧ ((5 : Int) < 0 → (power_limit_store "power_limit_1" 100 0 5 4).1 = 5) :=
  (power_limit_store_status "power_limit_1" 100 0 4).2.2.1 5 (by decide)

theorem readonly_names_eq :
    readonly_names
      = ["total_energy_millijoules", "current_power_milliwatts", "thermal_spec_power_watts",
         "minimum_power_watts", "maximum_power_watts", "maximum_time_window_milliseconds"] := by
  decide

/-- Claim C12: the six read-only attributes are those whose `store` callback
is `no_store`.  A write to any of them returns `-EPERM` for every buffer and
count, leaves the unit kinds, the sample pair and every other file-scope
variable as they were, and issues no register write. -/
theorem no_store_rejects :
    readonly_names
      = ["total_energy_millijoules", "current_power_milliwatts", "thermal_spec_power_watts",
         "minimum_power_watts", "maximum_power_watts", "maximum_time_window_milliseconds"]
    ∧ (∀ (s : State) (name buf : String) (count : Nat),
        no_store s name buf count = (-EPERM, s, []))
    ∧ (∀ name ∈ readonly_names, ∀ (s : State) (buf : String) (userinput currentval : Nat)
        (writeerror : Int) (count : Nat),
        attr_store s name buf userinput currentval writeerror count = some (-EPERM, s, [])) := by
  refine ⟨readonly_names_eq, fun _ _ _ _ => rfl, ?_⟩
  intro name hn s buf userinput currentval writeerror count
  rw [readonly_names_eq] at hn
  have hcases : name = "total_energy_millijoules" ∨ name = "current_power_milliwatts"
      ∨ name = "thermal_spec_power_watts" ∨ name = "minimum_power_watts"
      ∨ name = "maximum_power_watts" ∨ name = "maximum_time_window_milliseconds" := by
    simpa only [List.mem_cons, List.mem_singleton, List.not_mem_nil, or_false] using hn
  rcases hcases with h | h | h | h | h | h <;> (rw [h]; rfl)

theorem no_store_rejects_witness :
    attr_store zero_state "current_power_milliwatts" "42" 42 0 0 3
      = some (-EPERM, zero_state, []) :=
  no_store_rejects.2.2 "current_power_milliwatts" (by decide) zero_state "42" 42 0 0 3

/-! ## A read of the power while the timer callback runs -/

theorem tick_after_all (s : State) (msr : Nat) (n : Nat) (h : 3 ≤ n) :
    tick_after s msr n = update_watts_timer s msr := by
  rcases n with _ | _ | _ | n
  · omega
  · omega
  · omega
  · rfl

theorem tick_after_kind (s : State) (msr : Nat) (k : Nat) :
    (tick_after s msr k).energy_unit_type = s.energy_unit_type := by
  rcases k with _ | _ | _ | k <;> rfl

theorem tick_after_end_early (s : State) (msr : Nat) (i : Nat) (h : i ≤ 2) :
    (tick_after s msr i).energyend = s.energyend := by
  rcases i with _ | _ | _ | i
  · rfl
  · rfl
  · rfl
  · omega

theorem tick_after_start_early (s : State) (msr : Nat) (j : Nat) (h : j ≤ 1) :
    (tick_after s msr j).energystart = s.energystart := by
  rcases j with _ | _ | j
  · rfl
  · rfl
  · omega

theorem tick_after_start_late (s : State) (msr : Nat) (j : Nat) (h : 2 ≤ j) :
    (tick_after s msr j).energystart = s.energyend := by
  rcases j with _ | _ | _ | j
  · omega
  · omega
  · rfl
  · rfl

/-- Claim C13 fails as stated: with the pair `(10000, 20000)` and a fresh
read of `40000`, a `watts_show` before the tick prints `153` and one after
the tick prints `306`.  A `watts_show` whose two loads both fall between the
tick's assignment `energystart = energyend` and its register read prints
`0`; one that loads `energystart` before that assignment and `energyend`
after the register read prints `459`.  Neither value belongs to the pair
before the tick or to the pair after it. -/
theorem torn_read_counterexample :
    watts_show
        { zero_state with
          energy_unit_type := rapl_unit.ENERGY_UNIT_DEFAULT
          energystart := 10000
          energyend := 20000 } = Printed.unsigned 153
    ∧ watts_show (update_watts_timer
        { zero_state with
          energy_unit_type := rapl_unit.ENERGY_UNIT_DEFAULT
          energystart := 10000
          energyend := 20000 } 40000) = Printed.unsigned 306
    ∧ watts_show_loads
        { zero_state with
          energy_unit_type := rapl_unit.ENERGY_UNIT_DEFAULT
          energystart := 10000
          energyend := 20000 } 40000 0 2 2 = Printed.unsigned 0
    ∧ watts_show_loads
        { zero_state with
          energy_unit_type := rapl_unit.ENERGY_UNIT_DEFAULT
          energystart := 10000
          energyend := 20000 } 40000 0 3 1 = Printed.unsigned 459
    ∧ ¬ (∀ k i j : Nat,
        watts_show_loads
            { zero_state with
              energy_unit_type := rapl_unit.ENERGY_UNIT_DEFAULT
              energystart := 10000
              energyend := 20000 } 40000 k i j
          = watts_show
            { zero_state with
              energy_unit_type := rapl_unit.ENERGY_UNIT_DEFAULT
              energystart := 10000
              energyend := 20000 }
        ∨ watts_show_loads
            { zero_state with
              energy_unit_type := rapl_unit.ENERGY_UNIT_DEFAULT
              energystart := 10000
              energyend := 20000 } 40000 k i j
          = watts_show (update_watts_timer
            { zero_state with
              energy_unit_type := rapl_unit.ENERGY_UNIT_DEFAULT
              energystart := 10000
              energyend := 20000 } 40000)) := by
  refine ⟨by decide, by decide, by decide, by decide, ?_⟩
  intro h
  exact absurd (h 0 3 1) (by decide)

/-- Claim C13, amended: a `watts_show` running while one timer callback runs
prints the value of the pair before the tick when it loads `energyend`
before the callback's register read and `energystart` before the callback's
assignment `energystart = energyend`; it prints the value of the pair after
the tick when it loads `energyend` after that register read and
`energystart` after that assignment.  A read whose three loads all see the
variables after the same number of statements is `watts_show` on that
state. -/
theorem untorn_read_full_pair (s : State) (msr : Nat) (k i j : Nat) :
    tick_after s msr 3 = update_watts_timer s msr
    ∧ watts_show_loads s msr k k k = watts_show (tick_after s msr k)
    ∧ (i ≤ 2 → j ≤ 1 → watts_show_loads s msr k i j = watts_show s)
    ∧ (3 ≤ i → 2 ≤ j →
        watts_show_loads s msr k i j = watts_show (update_watts_timer s msr)) := by
  refine ⟨rfl, rfl, ?_, ?_⟩
  · intro hi hj
    unfold watts_show_loads watts_show watts_result
    rw [tick_after_kind s msr k, tick_after_end_early s msr i hi,
      tick_after_start_early s msr j hj]
  · intro hi hj
    unfold watts_show_loads
    rw [tick_after_kind s msr k, tick_after_all s msr i hi, tick_after_start_late s msr j hj]
    rfl

theorem untorn_read_full_pair_witness :
    watts_show_loads
        { zero_state with
          energy_unit_type := rapl_unit.ENERGY_UNIT_DEFAULT
          energystart := 10000
          energyend := 20000 } 40000 0 3 2
      = watts_show (update_watts_timer
        { zero_state with
          energy_unit_type := rapl_unit.ENERGY_UNIT_DEFAULT
          energystart := 10000
          energyend := 20000 } 40000) :=
  (untorn_read_full_pair
    { zero_state with
      energy_unit_type := rapl_unit.ENERGY_UNIT_DEFAULT
      energystart := 10000
      energyend := 20000 } 40000 0 3 2).2.2.2 (by decide) (by decide)

/-! ## The split conversion against the naive one -/

theorem to_millijoules_eq_floor (raw : Nat) (h : raw < 2 ^ 32) :
    to_millijoules raw = ((raw * 153 / 10000 : Nat) : Int) := by
  rw [to_millijoules_eq raw h]
  congr 1
  omega

/-- Claim C14: for every 32-bit `raw`, the split computation of
`to_millijoules` gives exactly `floor(raw * 153 / 10000)` as evaluated on
unbounded integers, and neither of its products nor its sum reaches `2^32`;
the naive product `raw * 153` does reach `2^32` for some 32-bit `raw`
(from `28071682` on). -/
theorem to_millijoules_matches_naive :
    (∀ raw : Nat, raw < 2 ^ 32 →
      to_millijoules raw = (naive_millijoules raw : Int)
      ∧ raw / 10000 * 153 < 2 ^ 32
      ∧ raw % 10000 * 153 < 2 ^ 32
      ∧ raw / 10000 * 153 + raw % 10000 * 153 / 10000 < 2 ^ 32)
    ∧ (∃ raw : Nat, raw < 2 ^ 32 ∧ 2 ^ 32 ≤ raw * 153)
    ∧ (∀ raw : Nat, 28071682 ≤ raw → 2 ^ 32 ≤ raw * 153) := by
  refine ⟨?_, ⟨28071682, by decide, by decide⟩, ?_⟩
  · intro raw h
    exact ⟨to_millijoules_eq_floor raw h, by omega, by omega, by omega⟩
  · intro raw h
    omega

theorem to_millijoules_matches_naive_witness :
    to_millijoules 4294967295 = (naive_millijoules 4294967295 : Int) :=
  (to_millijoules_matches_naive.1 4294967295 (by decide)).1

/-! ## Addition against bitwise or in `newval` -/

theorem field_operands_disjoint (o w : Nat) (h : o + w ≤ 64) (r v : Nat) :
    shl64 ((2 ^ w - 1) &&& v) o &&& (r &&& not64 (shl64 (2 ^ w - 1) o)) = 0 := by
  rw [shl64_mask_and o w h, shl64_mask o w h]
  have hm : (2 ^ w - 1) <<< o < 2 ^ 64 := by
    have := mask_shift_lt o w h (2 ^ w - 1)
    rwa [Nat.and_self] at this
  apply Nat.eq_of_testBit_eq
  intro i
  simp only [Nat.testBit_and, testBit_not64 _ _ hm, testBit_mask_shift, Nat.testBit_shiftLeft,
    Nat.testBit_two_pow_sub_one, Nat.zero_testBit]
  by_cases h1 : o ≤ i
  · by_cases h2 : i < o + w
    · have h3 : i - o < w := by omega
      simp [h1, h2, h3]
    · have h3 : ¬ (i - o < w) := by omega
      simp [h1, h2, h3]
  · simp [h1]

theorem spec_set_of_mask (o w : Nat) (h : o + w ≤ 64) (r v : Nat) :
    spec_set r o (2 ^ w - 1) v
      = ((2 ^ w - 1) &&& v) <<< o ||| (r &&& not64 ((2 ^ w - 1) <<< o)) := by
  unfold spec_set
  rw [shl64_mask_and o w h, shl64_mask o w h]

/-- Claim C15: for every field of the layout, every 64-bit `r` and every
32-bit `v`, the `newval` that `power_limit_store` computes with an addition
equals the specification's `set` formula with a bitwise or; the two operands
share no set bit, and their sum stays below `2^64`, so the addition neither
carries nor wraps. -/
theorem newval_add_is_or :
    ∀ name ∈ limit_names, ∀ r v : Nat, r < 2 ^ 64 → v < 2 ^ 32 →
      power_limit_newval name r v
          = spec_set r (power_limit_field name).1 (power_limit_field name).2 v
      ∧ shl64 ((power_limit_field name).2 &&& v) (power_limit_field name).1
          &&& (r &&& not64 (shl64 (power_limit_field name).2 (power_limit_field name).1)) = 0
      ∧ shl64 ((power_limit_field name).2 &&& v) (power_limit_field name).1
          + (r &&& not64 (shl64 (power_limit_field name).2 (power_limit_field name).1))
          < 2 ^ 64 := by
  intro name hn r v hr _
  obtain ⟨o, w, hf, _, hmem⟩ := limit_field_range name hn
  have h64 : o + w ≤ 64 := ranges_fit (o, w) hmem
  have hdisj := field_operands_disjoint o w h64 r v
  rw [newval_of_field name o _ hf, hf]
  refine ⟨?_, hdisj, ?_⟩
  · rw [field_newval_eq_or o w h64 r v hr, spec_set_of_mask o w h64 r v]
  · rw [add_eq_or_of_and_eq_zero _ _ hdisj]
    apply Nat.or_lt_two_pow
    · unfold shl64
      exact Nat.mod_lt _ (Nat.two_pow_pos 64)
    · rw [Nat.and_comm]
      exact Nat.and_lt_two_pow _ hr

theorem newval_add_is_or_witness :
    power_limit_newval "time_window_power_limit_2" 0xFFFFFFFFFFFFFFFF 0xFFFFFFFF
      = spec_set 0xFFFFFFFFFFFFFFFF (power_limit_field "time_window_power_limit_2").1
          (power_limit_field "time_window_power_limit_2").2 0xFFFFFFFF :=
  (newval_add_is_or "time_window_power_limit_2" (by decide) 0xFFFFFFFFFFFFFFFF 0xFFFFFFFF
    (by decide) (by decide)).1

/-! ## Total energy -/

theorem to_millijoules_bounds (raw : Nat) (h : raw < 2 ^ 32) :
    0 ≤ to_millijoules raw ∧ to_millijoules raw < 2 ^ 31 := by
  rw [to_millijoules_eq raw h]
  omega

/-- Claim C16: for every energy-status read `r`, with the energy unit kind
known `joules_show` prints `to_millijoules` of `r mod 2^32`, a non-negative
value, so two reads that agree on their low 32 bits print the same; with the
energy unit kind Unknown it prints the sentinel for every `r`. -/
theorem joules_show_low_bits (s : State) :
    (s.energy_unit_type ≠ rapl_unit.UNIT_UNKNOWN →
      ∀ r : Nat,
        joules_show s r = Printed.unsigned (to_millijoules (r % 2 ^ 32)).toNat
        ∧ 0 ≤ to_millijoules (r % 2 ^ 32))
    ∧ (∀ r1 r2 : Nat, r1 % 2 ^ 32 = r2 % 2 ^ 32 → joules_show s r1 = joules_show s r2)
    ∧ (s.energy_unit_type = rapl_unit.UNIT_UNKNOWN →
      ∀ r : Nat, joules_show s r = Printed.sentinel) := by
  refine ⟨?_, ?_, ?_⟩
  · intro hk r
    have hlt : r % 2 ^ 32 < 2 ^ 32 := Nat.mod_lt _ (Nat.two_pow_pos 32)
    obtain ⟨h0, h1⟩ := to_millijoules_bounds (r % 2 ^ 32) hlt
    refine ⟨?_, h0⟩
    unfold joules_show u32_of_u64
    rw [if_neg hk]
    congr 1
    unfold u32_of_int
    omega
  · intro r1 r2 h
    unfold joules_show u32_of_u64
    rw [h]
  · intro hk r
    unfold joules_show
    rw [if_pos hk]

theorem joules_show_low_bits_witness :
    joules_show { zero_state with energy_unit_type := rapl_unit.ENERGY_UNIT_DEFAULT }
        0x100002710
      = Printed.unsigned (to_millijoules (0x100002710 % 2 ^ 32)).toNat
    ∧ 0 ≤ to_millijoules (0x100002710 % 2 ^ 32) :=
  (joules_show_low_bits
    { zero_state with energy_unit_type := rapl_unit.ENERGY_UNIT_DEFAULT }).1
    (by decide) 0x100002710

/-! ## Monotonicity of the energy conversion -/

/-- Claim C17: `to_millijoules` grows by `0` or `1` per raw unit and is
monotone on 32-bit inputs.  So when the low 32 bits of `energyend` are at
least the low 32 bits of `energystart`, the result computed by `watts_show`
is non-negative and at most `to_millijoules` of the raw difference plus `1`;
a negative result occurs only when the low 32 bits of `energyend` are below
those of `energystart`, that is, when the counter has wrapped. -/
theorem to_millijoules_monotone :
    (∀ raw : Nat, raw < 2 ^ 32 - 1 →
      to_millijoules (raw + 1) - to_millijoules raw = 0
      ∨ to_millijoules (raw + 1) - to_millijoules raw = 1)
    ∧ (∀ a b : Nat, a ≤ b → b < 2 ^ 32 → to_millijoules a ≤ to_millijoules b)
    ∧ (∀ s : State, u32_of_u64 s.energystart ≤ u32_of_u64 s.energyend →
        0 ≤ watts_result s
        ∧ watts_result s
            ≤ to_millijoules (u32_of_u64 s.energyend - u32_of_u64 s.energystart) + 1)
    ∧ (∀ s : State, watts_result s < 0 →
        u32_of_u64 s.energyend < u32_of_u64 s.energystart) := by
  have mono : ∀ a b : Nat, a ≤ b → b < 2 ^ 32 → to_millijoules a ≤ to_millijoules b := by
    intro a b hab hb
    rw [to_millijoules_eq_floor a (by omega), to_millijoules_eq_floor b hb]
    omega
  have hu : ∀ x : Nat, u32_of_u64 x < 2 ^ 32 := by
    intro x
    unfold u32_of_u64
    exact Nat.mod_lt _ (Nat.two_pow_pos 32)
  refine ⟨?_, mono, ?_, ?_⟩
  · intro raw h
    rw [to_millijoules_eq_floor (raw + 1) (by omega), to_millijoules_eq_floor raw (by omega)]
    omega
  · intro s hle
    have he := hu s.energyend
    have hs := hu s.energystart
    unfold watts_result
    rw [to_millijoules_eq_floor _ he, to_millijoules_eq_floor _ hs,
      to_millijoules_eq_floor (u32_of_u64 s.energyend - u32_of_u64 s.energystart) (by omega)]
    omega
  · intro s hneg
    by_contra hc
    have hle : u32_of_u64 s.energystart ≤ u32_of_u64 s.energyend := by omega
    have := mono _ _ hle (hu s.energyend)
    unfold watts_result at hneg
    omega

theorem to_millijoules_monotone_witness :
    to_millijoules (9999 + 1) - to_millijoules 9999 = 0
    ∨ to_millijoules (9999 + 1) - to_millijoules 9999 = 1 :=
  to_millijoules_monotone.1 9999 (by decide)

/-! ## The time window -/

theorem to_milliseconds_small (raw : Nat) (h : raw ≤ 63) :
    to_milliseconds raw = ((raw * 976 / 1000 : Nat) : Int) := by
  rw [to_milliseconds_mod raw (by omega)]
  unfold int_of_u32
  rw [if_pos (by omega)]
  congr 1
  omega

theorem max_time_window_arg (r : Nat) :
    u32_of_u64 ((r >>> MAXIMUM_TIME_WINDOW_OFFSET) &&& MAXIMUM_TIME_WINDOW_MASK)
      = r / 2 ^ 48 % 2 ^ 6 := by
  have e3 : (r >>> MAXIMUM_TIME_WINDOW_OFFSET) &&& MAXIMUM_TIME_WINDOW_MASK
      = r / 2 ^ 48 % 2 ^ 6 := field_eq_div_mod r 48 6
  rw [e3]
  unfold u32_of_u64
  omega

/-- Claim C18: the only call of `to_milliseconds` passes the 6-bit
maximum-time-window field, at most `63`.  On that domain neither product nor
the sum reaches `2^32`, the result is `floor(raw * 976 / 1000)`, lies between
`0` and `61`, and is below `raw` for `raw ≥ 1`; so what
`maximum_time_window_milliseconds` prints, when not the sentinel, is between
`0` and `61`. -/
theorem to_milliseconds_on_time_window :
    (∀ raw : Nat, raw ≤ 63 →
      raw / 1000 * 976 < 2 ^ 32
      ∧ raw % 1000 * 976 < 2 ^ 32
      ∧ raw / 1000 * 976 + raw % 1000 * 976 / 1000 < 2 ^ 32
      ∧ to_milliseconds raw = ((raw * 976 / 1000 : Nat) : Int)
      ∧ 0 ≤ to_milliseconds raw
      ∧ to_milliseconds raw ≤ 61
      ∧ (1 ≤ raw → to_milliseconds raw < (raw : Int)))
    ∧ (∀ r : Nat,
        u32_of_u64 ((r >>> MAXIMUM_TIME_WINDOW_OFFSET) &&& MAXIMUM_TIME_WINDOW_MASK) ≤ 63)
    ∧ (∀ (s : State) (r : Nat),
        power_info_show s "maximum_time_window_milliseconds" r = Printed.sentinel
        ∨ ∃ n : Nat, n ≤ 61
            ∧ power_info_show s "maximum_time_window_milliseconds" r = Printed.unsigned n) := by
  refine ⟨?_, ?_, ?_⟩
  · intro raw h
    rw [to_milliseconds_small raw h]
    exact ⟨by omega, by omega, by omega, rfl, by omega, by omega, fun _ => by omega⟩
  · intro r
    rw [max_time_window_arg r]
    omega
  · intro s r
    have harg := max_time_window_arg r
    have hle : r / 2 ^ 48 % 2 ^ 6 ≤ 63 := by omega
    have hms := to_milliseconds_small (r / 2 ^ 48 % 2 ^ 6) hle
    have hu : u32_of_int (to_milliseconds (r / 2 ^ 48 % 2 ^ 6))
        = r / 2 ^ 48 % 2 ^ 6 * 976 / 1000 := by
      rw [hms]
      exact u32_of_int_natCast _ (by omega)
    unfold power_info_show
    rw [harg, hu]
    by_cases hk : s.time_unit_type = rapl_unit.UNIT_UNKNOWN
    · left
      simp [hk]
    · right
      refine ⟨r / 2 ^ 48 % 2 ^ 6 * 976 / 1000, by omega, ?_⟩
      simp [hk]

theorem to_milliseconds_on_time_window_witness :
    to_milliseconds 63 = ((63 * 976 / 1000 : Nat) : Int)
    ∧ to_milliseconds 63 ≤ 61
    ∧ ((1 : Nat) ≤ 63 → to_milliseconds 63 < ((63 : Nat) : Int)) :=
  ⟨(to_milliseconds_on_time_window.1 63 (by decide)).2.2.2.1,
    (to_milliseconds_on_time_window.1 63 (by decide)).2.2.2.2.2.1,
    (to_milliseconds_on_time_window.1 63 (by decide)).2.2.2.2.2.2⟩

end RAPL
